import Mathlib

/-!
# ccsd: bootstrap and dispatch of the cluster configuration daemon

A shallow embedding of `ccs/daemon/ccsd.c`.  Every C function of the file that
the properties below talk about is a Lean function of the same name.  The
operating system and the C library are not part of the file, so their answers
are inputs of the model:

* `getopt` is represented by the sequence of results it hands to the loop of
  `parse_cli_args` (option character and `optarg`);
* `inet_pton` is a pair of functions carried in `Inet`;
* every system call is answered by a `SysRet` (return value and the value it
  leaves in `errno`, if it sets it);
* the global variables declared in `globals.h` are the fields of `Globals`,
  their initial values are an argument.

Side effects are recorded as a list of `Event`s in program order.
-/

namespace Ccsd

/-! ## Constants of the system headers (Linux values) -/

def EXIT_SUCCESS : Int := 0
def EXIT_FAILURE : Int := 1

def AF_INET : Int := 2
def AF_INET6 : Int := 10
def PF_INET : Int := 2
def PF_INET6 : Int := 10
def SOCK_STREAM : Int := 1
def SOCK_DGRAM : Int := 2

def EINVAL : Int := 22
def ENOMEM : Int := 12
def ENOTDIR : Int := 20

def SIGINT : Nat := 2
def SIGQUIT : Nat := 3
def SIGUSR1 : Nat := 10
def SIGSEGV : Nat := 11
def SIGTERM : Nat := 15

def FLAG_NODAEMON : Nat := 1
def FLAG_VERBOSE : Nat := 2

/-! ## C strings, `atoi`, `%d` -/

/-- The character `s[i]` of a C string: the characters of `s`, then the
terminating NUL.  (`parse_cli_args` reads `optarg[1]`; for an empty `optarg`
that byte lies behind the terminator; the model reads NUL there, and the
outcome does not depend on it because `optarg[0]` is then NUL and the tag
switch takes its default branch.) -/
def cchar (s : String) (i : Nat) : Char :=
  s.toList.getD i (Char.ofNat 0)

/-- The string `s + k` (pointer arithmetic on a C string). -/
def cdrop (s : String) (k : Nat) : List Char :=
  s.toList.drop k

/-- The predicate `isspace` of the C locale. -/
def isspace (c : Char) : Bool :=
  c.toNat == 32 || (9 ≤ c.toNat && c.toNat ≤ 13)

/-- The predicate `isdigit`. -/
def isdigit (c : Char) : Bool :=
  48 ≤ c.toNat && c.toNat ≤ 57

/-- Accumulates the leading decimal digits of a string onto `acc`. -/
def scanDigits : List Char → Nat → Nat
  | [], acc => acc
  | c :: cs, acc => if isdigit c then scanDigits cs (10 * acc + (c.toNat - 48)) else acc

/-- Skips leading white space. -/
def skipSpace : List Char → List Char
  | [] => []
  | c :: cs => if isspace c then skipSpace cs else c :: cs

def LONG_MAX : Int := 2 ^ 63 - 1
def LONG_MIN : Int := -(2 ^ 63)

/-- The function `strtol(s, NULL, 10)`: white space, an optional sign, decimal
digits; the value saturates at the bounds of `long`. -/
def strtol (s : List Char) : Int :=
  match skipSpace s with
  | '-' :: cs => max LONG_MIN (-(scanDigits cs 0 : Int))
  | '+' :: cs => min LONG_MAX (scanDigits cs 0 : Int)
  | cs => min LONG_MAX (scanDigits cs 0 : Int)

/-- Conversion of a `long` to `int`: the low 32 bits, read as two's complement. -/
def toInt32 (z : Int) : Int :=
  (z + 2 ^ 31) % 2 ^ 32 - 2 ^ 31

/-- The function `atoi`, which is `(int) strtol(s, NULL, 10)`. -/
def atoi (s : List Char) : Int :=
  toInt32 (strtol s)

/-- Decimal digits of `n`, most significant first, in front of `acc`. -/
def decimalAux : Nat → Nat → List Char → List Char
  | 0, _, acc => acc
  | fuel + 1, n, acc =>
    let acc1 := Char.ofNat (48 + n % 10) :: acc
    if n / 10 = 0 then acc1 else decimalAux fuel (n / 10) acc1

/-- The decimal representation of a natural number. -/
def decimal (n : Nat) : List Char :=
  decimalAux (n + 1) n []

/-- The conversion `%d` of `printf`. -/
def fmt_d (z : Int) : List Char :=
  if z < 0 then '-' :: decimal z.natAbs else decimal z.toNat

/-! ## `is_multicast_addr` -/

/-- The two address parsers of the C library: `inet_pton(AF_INET6, ..)` and
`inet_pton(AF_INET, ..)`.  A result `some bytes` stands for return value 1 with
the address bytes in network order, `none` for a return value `<= 0`. -/
structure Inet where
  pton6 : String → Option (List Nat)
  pton4 : String → Option (List Nat)

/-- The macro `IN6_IS_ADDR_MULTICAST`: the first byte is `0xff`. -/
def IN6_IS_ADDR_MULTICAST (a : List Nat) : Bool :=
  a.getD 0 0 == 255

/-- The macro `IN_MULTICAST` applied to `ntohl(s_addr)`: the top four bits of
the first byte in network order are `1110`. -/
def IN_MULTICAST (a : List Nat) : Bool :=
  a.getD 0 0 / 16 == 14

/-- The function `is_multicast_addr`: `AF_INET6`, `AF_INET` or 0. -/
def is_multicast_addr (inet : Inet) (addr_string : String) : Int :=
  match inet.pton6 addr_string with
  | some a6 => if IN6_IS_ADDR_MULTICAST a6 then AF_INET6 else 0
  | none =>
    match inet.pton4 addr_string with
    | some a4 => if IN_MULTICAST a4 then AF_INET else 0
    | none => 0

/-! ## Global variables and `parse_cli_args` -/

/-- The globals of `globals.h` that `ccsd.c` reads or writes, and the static
`flags`. A `char *` that may be `NULL` is an `Option`. -/
structure Globals where
  IPv6 : Int
  multicast_address : Option String
  backend_port : Int
  cluster_base_port : Int
  frontend_port : Int
  ttl : Int
  config_file_location : Option String
  lockfile_location : Option String
  flags : Nat
  deriving DecidableEq, Repr

inductive Stream where
  | stdout
  | stderr
  deriving DecidableEq, Repr

/-- What `parse_cli_args` prints. -/
inductive Printed where
  /-- The call `print_usage(stream)`. -/
  | usage (stream : Stream)
  /-- The two `printf` lines of `-V` (release name and copyright). -/
  | version
  /-- A `fprintf(stderr, text)`. -/
  | err (text : String)
  deriving DecidableEq, Repr

/-- One result of `getopt`: the option character (`?` for an option that is not
in the option string or lacks its argument) and `optarg`. -/
structure GetOpt where
  c : Char
  optarg : String
  deriving DecidableEq, Repr

/-- The option string handed to `getopt`. -/
def optstring : String := "46cdf:hlm:nP:t:sVv"

/-- Local state of `parse_cli_args`: the globals, `error`, the lines appended
to `buff` (the 512 byte limit of `buff` is not modelled) and what was printed
so far. -/
structure PState where
  g : Globals
  error : Int
  buff : List String
  out : List Printed
  deriving DecidableEq, Repr

/-- How one turn of the `switch` ends. -/
inductive Step where
  /-- The statement `break`: the loop asks `getopt` again. -/
  | next (s : PState)
  /-- The statement `goto fail`. -/
  | fail (s : PState)
  /-- A direct call of `exit`. -/
  | exit (status : Int) (s : PState)
  deriving DecidableEq, Repr

def PState.say (s : PState) (line : String) : PState :=
  { s with buff := s.buff ++ [line] }

def PState.eprint (s : PState) (text : String) : PState :=
  { s with out := s.out ++ [Printed.err text] }

def PState.einval (s : PState) : PState :=
  { s with error := -EINVAL }

def deprecated_text (c : Char) : String :=
  "The '-" ++ c.toString ++ "' option is depricated.\nTry '-h' for help.\n"

def bad_P_text : String :=
  "Bad argument to '-P' option.\nTry '-h' for help.\n"

/-- The body of `case 'P'` (also reached by falling through from `case 'p'`). -/
def case_P (optarg : String) (s : PState) : Step :=
  if cchar optarg 1 ≠ ':' then
    Step.fail (s.eprint bad_P_text).einval
  else if cchar optarg 0 = 'b' then
    let p := atoi (cdrop optarg 2)
    Step.next ({ s with g := { s.g with backend_port := p } }.say
      ("  Backend Port:: " ++ String.mk (fmt_d p) ++ "\n"))
  else if cchar optarg 0 = 'c' then
    let p := atoi (cdrop optarg 2)
    Step.next ({ s with g := { s.g with cluster_base_port := p } }.say
      ("  Cluster base port:: " ++ String.mk (fmt_d p) ++ "\n"))
  else if cchar optarg 0 = 'f' then
    let p := atoi (cdrop optarg 2)
    Step.next ({ s with g := { s.g with frontend_port := p } }.say
      ("  Frontend Port:: " ++ String.mk (fmt_d p) ++ "\n"))
  else
    Step.fail (s.eprint bad_P_text).einval

/-- The body of `case 'm'`. -/
def case_m (inet : Inet) (optarg : String) (s : PState) : Step :=
  let set (s1 : PState) : Step :=
    Step.next ({ s1 with g := { s1.g with multicast_address := some optarg } }.say
      ("  Multicast (" ++ optarg ++ "):: SET\n"))
  if optarg ≠ "default" then
    let type := is_multicast_addr inet optarg
    if s.g.IPv6 = 1 ∧ type ≠ AF_INET6 then
      Step.fail (s.eprint (optarg ++ " is not a valid IPv6 multicast address.\n")).einval
    else if s.g.IPv6 = 0 ∧ type ≠ AF_INET then
      Step.fail (s.eprint (optarg ++ " is not a valid IPv4 multicast address.\n")).einval
    else if type = 0 then
      Step.fail (s.eprint (optarg ++ " is not a valid multicast address.\n")).einval
    else
      let v : Int := if type = AF_INET6 then 1 else 0
      set ({ s with g := { s.g with IPv6 := v } }.say
        ("  IP Protocol:: " ++ (if v ≠ 0 then "IPv6" else "IPv4") ++ " only*\n"))
  else
    set s

/-- One turn of the `switch(c)` in the `getopt` loop of `parse_cli_args`. -/
def parse_switch (inet : Inet) (o : GetOpt) (s : PState) : Step :=
  if o.c = '4' then
    if s.g.IPv6 = 1 then
      Step.fail (s.eprint "Setting protocol to IPv4 conflicts with multicast address.\n").einval
    else
      Step.next ({ s with g := { s.g with IPv6 := 0 } }.say "  IP Protocol:: IPv4 only\n")
  else if o.c = '6' then
    if s.g.IPv6 = 0 then
      Step.fail (s.eprint "Setting protocol to IPv6 conflicts with multicast address.\n").einval
    else
      Step.next ({ s with g := { s.g with IPv6 := 1 } }.say "  IP Protocol:: IPv6 only\n")
  else if o.c = 'c' then Step.fail (s.eprint (deprecated_text 'c')).einval
  else if o.c = 'd' then Step.fail (s.eprint (deprecated_text 'd')).einval
  else if o.c = 'f' then
    Step.next ({ s with g := { s.g with config_file_location := some o.optarg } }.say
      ("  Config file location:: " ++ o.optarg ++ "\n"))
  else if o.c = 'h' then Step.exit EXIT_SUCCESS { s with out := s.out ++ [Printed.usage Stream.stdout] }
  else if o.c = 'l' then Step.fail (s.eprint (deprecated_text 'l')).einval
  else if o.c = 'm' then case_m inet o.optarg s
  else if o.c = 'n' then
    Step.next ({ s with g := { s.g with flags := s.g.flags ||| FLAG_NODAEMON } }.say
      "  No Daemon:: SET\n")
  else if o.c = 'p' then
    case_P o.optarg ({ s with g := { s.g with lockfile_location := some o.optarg } }.say
      ("  Lock file location:: " ++ o.optarg ++ "\n"))
  else if o.c = 'P' then case_P o.optarg s
  else if o.c = 's' then Step.fail (s.eprint (deprecated_text 's')).einval
  else if o.c = 't' then Step.next { s with g := { s.g with ttl := atoi o.optarg.toList } }
  else if o.c = 'V' then Step.exit EXIT_SUCCESS { s with out := s.out ++ [Printed.version] }
  else if o.c = 'v' then
    Step.next ({ s with g := { s.g with flags := s.g.flags ||| FLAG_VERBOSE } }.say
      "  Verbose Flag:: SET\n")
  else
    Step.fail ({ s with out := s.out ++ [Printed.usage Stream.stderr] }).einval

/-- How `parse_cli_args` ends: the process has exited, or the function returns
the message (`NULL` when `buff` is empty) with the globals set. -/
inductive ParseResult where
  | exited (status : Int) (out : List Printed)
  | returned (g : Globals) (msg : Option String) (out : List Printed)
  deriving DecidableEq, Repr

/-- The code behind the label `fail` of `parse_cli_args`. -/
def parse_finish (s : PState) : ParseResult :=
  if s.error ≠ 0 then ParseResult.exited EXIT_FAILURE s.out
  else
    let buff := String.join s.buff
    if buff.length ≠ 0 then ParseResult.returned s.g (some buff) s.out
    else ParseResult.returned s.g none s.out

/-- The loop `while((c = getopt(..)) != -1)` over the results of `getopt`. -/
def parse_loop (inet : Inet) : List GetOpt → PState → ParseResult
  | [], s => parse_finish s
  | o :: rest, s =>
    match parse_switch inet o s with
    | Step.next s1 => parse_loop inet rest s1
    | Step.fail s1 => parse_finish s1
    | Step.exit status s1 => ParseResult.exited status s1.out

/-- The state of `parse_cli_args` when the `getopt` loop starts: both paths
hold the copies of their defaults, `error` is 0 and `buff` is empty. -/
def parse_init (config_default lock_default : String) (g0 : Globals) : PState :=
  { g := { g0 with config_file_location := some config_default,
                   lockfile_location := some lock_default },
    error := 0, buff := [], out := [] }

/-- The function `parse_cli_args`.  `mem_ok` tells whether both `strdup` calls
at its start succeed; `config_default` and `lock_default` are the values of
`DEFAULT_CONFIG_LOCATION` and `DEFAULT_CCSD_LOCKFILE`. -/
def parse_cli_args (inet : Inet) (mem_ok : Bool) (config_default lock_default : String)
    (g0 : Globals) (opts : List GetOpt) : ParseResult :=
  if !mem_ok then
    ParseResult.exited EXIT_FAILURE [Printed.err "Insufficient memory.\n"]
  else
    parse_loop inet opts (parse_init config_default lock_default g0)

/-! ## System calls, `errno` and the trace of side effects -/

/-- The answer of a system call: its return value and the value it stores in
`errno` (`none` when it leaves `errno` alone). -/
structure SysRet where
  ret : Int
  errno : Option Int
  deriving DecidableEq, Repr

/-- The value of `errno` after a call, given its value before. -/
def SysRet.after (r : SysRet) (errno : Int) : Int :=
  r.errno.getD errno

/-- The rule of POSIX for `errno`: a call that fails (negative return value)
stores a positive error number, and no call ever stores 0. -/
def SysRet.posix (r : SysRet) : Prop :=
  (r.ret < 0 → ∃ e, r.errno = some e ∧ 0 < e) ∧ ∀ e, r.errno = some e → 0 < e

inductive LogLevel where
  | dbg
  | msg
  | err
  | sys_err
  deriving DecidableEq, Repr

inductive Handler where
  | parent_exit_handler
  | sig_handler
  deriving DecidableEq, Repr

inductive SockOpt where
  | SO_REUSEADDR
  | IP_MULTICAST_LOOP (loopback : Int)
  | IP_ADD_MEMBERSHIP (group : Option (List Nat))
  | IPV6_MULTICAST_LOOP (loopback : Int)
  | IPV6_ADD_MEMBERSHIP (group : Option (List Nat))
  deriving DecidableEq, Repr

inductive BindAddr where
  | loopback
  | any
  deriving DecidableEq, Repr

/-- The side effects of the daemon, one constructor for each library call of
`ccsd.c` (with its arguments and, where the code looks at it, its result). -/
inductive Event where
  | printed (p : Printed)
  | eprint (text : String)
  | log (level : LogLevel) (text : String)
  | log_open
  | log_set_verbose
  | stat (path : String) (ret : Int)
  | mkdir (path : String) (ret : Int)
  | open_ (path : String) (ret : Int)
  | fcntl_setlk (fd : Int) (ret : Int)
  | ftruncate (fd : Int) (ret : Int)
  | write (fd : Int) (buf : String) (count : Nat) (ret : Int)
  | unlink (path : String)
  | close (fd : Int)
  | signal (sig : Nat) (h : Handler)
  | fork (ret : Int)
  | sleep (seconds : Nat)
  | detach
  | kill_parent (sig : Nat)
  | start_cluster_monitor_thread (ret : Int)
  | socket (domain : Int) (type : Int) (ret : Int)
  | setsockopt (fd : Int) (opt : SockOpt) (ret : Int)
  | bind (fd : Int) (family : Int) (addr : BindAddr) (port : Nat) (ret : Int)
  | listen (fd : Int) (backlog : Nat)
  | inet_pton (family : Int) (addr_string : String)
  | select (ret : Int)
  | accept (fd : Int) (ret : Int)
  | process_request (fd : Int) (ret : Int)
  | process_broadcast (fd : Int) (ret : Int)
  deriving DecidableEq, Repr

/-- Byte swap of a 16 bit value: `ntohs` on a little-endian host. -/
def ntohs (x : Nat) : Nat :=
  (x % 256) * 256 + (x / 256) % 256

/-- The function `htons` applied to an `int`: conversion to `uint16_t`, then the
byte swap. -/
def htons (p : Int) : Nat :=
  ntohs (p % 65536).toNat

/-! ## `create_lockfile` -/

/-- Answers of the system to the calls of `create_lockfile`.  `log_errno` is
the value a logging call leaves in `errno` (`none`: unchanged); `pid` is the
result of `getpid`. -/
structure LockEnv where
  stat : SysRet
  is_dir : Bool
  mkdir : SysRet
  open_ : SysRet
  fcntl : SysRet
  ftruncate : SysRet
  write : SysRet
  close : SysRet
  unlink : SysRet
  log_errno : Option Int
  pid : Int
  deriving DecidableEq, Repr

/-- The text `sprintf(buffer, "%d\n", getpid())` leaves in `buffer`. -/
def pid_line (pid : Int) : List Char :=
  fmt_d pid ++ ['\n']

/-- The function `create_lockfile`; `errno0` is the value of `errno` on entry.
The result is the trace and the return value (`error`). -/
def create_lockfile (e : LockEnv) (errno0 : Int) (lockfile : String) : List Event × Int :=
  -- `!strncmp(lockfile, "/var/run/sistina/", 17)`
  let under : Bool := lockfile.toList.take 17 == "/var/run/sistina/".toList
  let ev1 := if under then [Event.stat "/var/run/sistina" e.stat.ret] else []
  let er1 := if under then e.stat.after errno0 else errno0
  if under ∧ e.stat.ret ≠ 0 ∧ e.mkdir.ret ≠ 0 then
    (ev1 ++ [Event.mkdir "/var/run/sistina" e.mkdir.ret,
             Event.log LogLevel.sys_err "Cannot create lockfile directory"],
     -(e.log_errno.getD (e.mkdir.after er1)))
  else if under ∧ e.stat.ret = 0 ∧ e.is_dir = false then
    (ev1 ++ [Event.log LogLevel.err "/var/run/sistina is not a directory.\nCannot create lockfile.\n"],
     -ENOTDIR)
  else
    let made : Bool := under && e.stat.ret != 0
    let ev2 := ev1 ++ (if made then [Event.mkdir "/var/run/sistina" e.mkdir.ret] else [])
    let er2 := if made then e.mkdir.after er1 else er1
    let ev3 := ev2 ++ [Event.open_ lockfile e.open_.ret]
    let er3 := e.open_.after er2
    if e.open_.ret < 0 then
      (ev3 ++ [Event.log LogLevel.sys_err "Cannot create lockfile"], -(e.log_errno.getD er3))
    else
      let fd := e.open_.ret
      let ev4 := ev3 ++ [Event.fcntl_setlk fd e.fcntl.ret]
      let er4 := e.fcntl.after er3
      if e.fcntl.ret < 0 then
        (ev4 ++ [Event.close fd, Event.log LogLevel.err "The ccsd process is already running.\n"],
         -(e.log_errno.getD (e.close.after er4)))
      else
        let ev5 := ev4 ++ [Event.ftruncate fd e.ftruncate.ret]
        let er5 := e.ftruncate.after er4
        if e.ftruncate.ret < 0 then
          (ev5 ++ [Event.close fd], -(e.close.after er5))
        else
          let buffer := pid_line e.pid
          let ev6 := ev5 ++ [Event.write fd (String.mk buffer) buffer.length e.write.ret]
          let er6 := e.write.after er5
          -- `write(..) < strlen(buffer)`: the `ssize_t` is converted to `size_t`
          if (e.write.ret % 2 ^ 64).toNat < buffer.length then
            (ev6 ++ [Event.close fd, Event.unlink lockfile],
             -(e.unlink.after (e.close.after er6)))
          else
            (ev6, 0)

/-! ## The handshake of `daemonize` -/

/-- The parent's view of the handshake: the global `parent_exit_code` and the
signals for which `parent_exit_handler` has run so far. -/
structure Parent where
  parent_exit_code : Int
  handled : List Nat
  deriving DecidableEq, Repr

/-- The state at program start: `int parent_exit_code=-1;`. -/
def Parent.init : Parent :=
  { parent_exit_code := -1, handled := [] }

/-- The function `parent_exit_handler`. -/
def parent_exit_handler (sig : Nat) (p : Parent) : Parent :=
  if sig = SIGUSR1 then
    { parent_exit_code := EXIT_FAILURE, handled := p.handled ++ [sig] }
  else
    { parent_exit_code := EXIT_SUCCESS, handled := p.handled ++ [sig] }

/-- Delivery of a batch of signals to the parent, in order. -/
def deliver (p : Parent) (sigs : List Nat) : Parent :=
  sigs.foldl (fun q sig => parent_exit_handler sig q) p

/-- The loop `while(parent_exit_code == -1) sleep(5); exit(parent_exit_code);`
of the parent.  Each element of the list is the batch of signals handled
during one `sleep`.  The result is the number of `sleep` calls, the final state
and the exit status, or `none` if the parent is still in the loop when the
list is used up. -/
def parent_wait : Parent → List (List Nat) → Nat × Parent × Option Int
  | p, [] => if p.parent_exit_code = -1 then (0, p, none) else (0, p, some p.parent_exit_code)
  | p, sigs :: rest =>
    if p.parent_exit_code = -1 then
      let r := parent_wait (deliver p sigs) rest
      (r.1 + 1, r.2)
    else (0, p, some p.parent_exit_code)

/-- How `daemonize` ends for the process that runs it. -/
inductive DaemonResult where
  /-- The function returns: the process goes on in `main`. -/
  | proceed
  /-- The process called `exit`. -/
  | exit (status : Int)
  /-- The parent is still waiting for a signal. -/
  | waiting
  deriving DecidableEq, Repr

/-- Answers of the system to `daemonize`: those for `create_lockfile`, the
value of `errno` on entry, the result of `fork` in the process observed, the
signals handled by the parent before its first test of `parent_exit_code`
and during each `sleep`. -/
structure DaemonEnv where
  lock : LockEnv
  errno0 : Int
  fork_ret : Int
  early : List Nat
  sleeps : List (List Nat)
  deriving DecidableEq, Repr

def install_sig_handler : List Event :=
  [Event.signal SIGINT Handler.sig_handler, Event.signal SIGQUIT Handler.sig_handler,
   Event.signal SIGTERM Handler.sig_handler, Event.signal SIGSEGV Handler.sig_handler]

def verbose_events (g : Globals) : List Event :=
  if g.flags &&& FLAG_VERBOSE ≠ 0 then [Event.log_set_verbose] else []

/-- The lock file path handed to `create_lockfile` (`lockfile_location` is
never `NULL` once `parse_cli_args` has returned). -/
def lockfile_path (g : Globals) : String :=
  g.lockfile_location.getD ""

/-- The function `daemonize`, for one process: the invoking process, or
(`fork_ret = 0`) the detached worker from `fork` onwards. -/
def daemonize (e : DaemonEnv) (g : Globals) : List Event × DaemonResult :=
  if g.flags &&& FLAG_NODAEMON ≠ 0 then
    let r := create_lockfile e.lock e.errno0 (lockfile_path g)
    let ev := Event.log LogLevel.dbg "Entering non-daemon mode.\n" :: r.1
    if r.2 ≠ 0 then (ev, DaemonResult.exit EXIT_FAILURE)
    else (ev ++ install_sig_handler ++ verbose_events g, DaemonResult.proceed)
  else
    let ev0 := [Event.log LogLevel.dbg "Entering daemon mode.\n",
                Event.signal SIGTERM Handler.parent_exit_handler,
                Event.signal SIGUSR1 Handler.parent_exit_handler,
                Event.fork e.fork_ret]
    if e.fork_ret < 0 then
      (ev0 ++ [Event.eprint "Unable to fork().\n"], DaemonResult.exit EXIT_FAILURE)
    else if e.fork_ret ≠ 0 then
      let r := parent_wait (deliver Parent.init e.early) e.sleeps
      (ev0 ++ List.replicate r.1 (Event.sleep 5),
       match r.2.2 with
       | some status => DaemonResult.exit status
       | none => DaemonResult.waiting)
    else
      let ev1 := ev0 ++ [Event.detach, Event.log_open] ++ verbose_events g
      let r := create_lockfile e.lock e.errno0 (lockfile_path g)
      if r.2 ≠ 0 then
        (ev1 ++ r.1 ++ [Event.kill_parent SIGUSR1], DaemonResult.exit EXIT_FAILURE)
      else
        (ev1 ++ r.1 ++ [Event.kill_parent SIGTERM] ++ install_sig_handler, DaemonResult.proceed)

/-! ## `join_group` -/

/-- The string `addr_string` chosen at the start of `join_group`.  The result
is `none` where the code evaluates `strcmp("default", NULL)`: IPv4 with no
multicast address (`main` never calls `join_group` in that state). -/
def join_group_addr (g : Globals) : Option String :=
  if g.IPv6 ≠ 0 then
    match g.multicast_address with
    | none => some "ff02::3:1"
    | some a => if a = "default" then some "ff02::3:1" else some a
  else
    match g.multicast_address with
    | none => none
    | some a => if a = "default" then some "224.0.2.5" else some a

/-- Answers of the system to the two `setsockopt` calls of `join_group`. -/
structure JoinEnv where
  mc_loop : SysRet
  mc_add : SysRet
  deriving DecidableEq, Repr

/-- What `join_group` leaves behind: the trace, the value of its local
variable `error` at the label `fail`, and the value it returns. -/
structure JoinResult where
  events : List Event
  error : Int
  ret : Int
  deriving DecidableEq, Repr

/-- The function `join_group`; `errno0` is `errno` on entry.  The last
statement of the function is `return 0;`, whatever `error` holds. -/
def join_group (inet : Inet) (e : JoinEnv) (errno0 : Int) (g : Globals)
    (sfd : Int) (loopback : Int) (port : Int) : Option JoinResult :=
  match join_group_addr g with
  | none => none
  | some addr_string =>
    let _sin_port := htons port
    let ss_family : Int := if g.IPv6 ≠ 0 then AF_INET6 else AF_INET
    let ev0 := [Event.inet_pton ss_family addr_string]
    if ss_family = AF_INET then
      let ev1 := ev0 ++ [Event.setsockopt sfd (SockOpt.IP_MULTICAST_LOOP loopback) e.mc_loop.ret]
      let er1 := e.mc_loop.after errno0
      if e.mc_loop.ret < 0 then
        some { events := ev1 ++ [Event.log LogLevel.err
                 ("Unable to " ++ (if loopback ≠ 0 then "SET" else "UNSET") ++ " loopback.\n")],
               error := -er1, ret := 0 }
      else
        let ev2 := ev1 ++ [Event.setsockopt sfd
                     (SockOpt.IP_ADD_MEMBERSHIP (inet.pton4 addr_string)) e.mc_add.ret]
        let er2 := e.mc_add.after er1
        if e.mc_add.ret < 0 then
          some { events := ev2 ++ [Event.log LogLevel.err "Unable to add to membership.\n"],
                 error := -er2, ret := 0 }
        else
          some { events := ev2, error := 0, ret := 0 }
    else if ss_family = AF_INET6 then
      let ev1 := ev0 ++ [Event.setsockopt sfd (SockOpt.IPV6_MULTICAST_LOOP loopback) e.mc_loop.ret]
      let er1 := e.mc_loop.after errno0
      if e.mc_loop.ret < 0 then
        some { events := ev1 ++ [Event.log LogLevel.err
                 ("Unable to " ++ (if loopback ≠ 0 then "SET" else "UNSET") ++ " loopback.\n")],
               error := -er1, ret := 0 }
      else
        let ev2 := ev1 ++ [Event.setsockopt sfd
                     (SockOpt.IPV6_ADD_MEMBERSHIP (inet.pton6 addr_string)) e.mc_add.ret]
        let er2 := e.mc_add.after er1
        if e.mc_add.ret < 0 then
          some { events := ev2 ++ [Event.log LogLevel.err "Unable to add to membership: (strerror)\n"],
                 error := -er2, ret := 0 }
        else
          some { events := ev2, error := 0, ret := 0 }
    else
      some { events := ev0 ++ [Event.log LogLevel.err "Unknown address family.\n"],
             error := -EINVAL, ret := 0 }

/-! ## The dispatch loop of `main` -/

/-- What the system answers during one turn of `while(1)`: the result of
`select`, `FD_ISSET` for the two sockets, the result of `accept`, the port
field (`sin_port` and `sin6_port` are the same two bytes of `addr`, in network
byte order) and the results of the two request handlers. -/
structure PassEnv where
  select_ret : Int
  isset0 : Bool
  isset1 : Bool
  accept_ret : Int
  port : Nat
  request_ret : Int
  broadcast_ret : Int
  deriving DecidableEq, Repr

/-- The branch `i == 0` of the `for` loop: a readable frontend socket. -/
def serve_frontend (IPv6 : Int) (sfd : Int) (p : PassEnv) : List Event :=
  let ev0 := [Event.log LogLevel.dbg "NORMAL CCS REQUEST.\n", Event.accept sfd p.accept_ret]
  let afd := p.accept_ret
  if afd < 0 then
    ev0 ++ [Event.log LogLevel.sys_err "Unable to accept connection"]
  else
    let port := if IPv6 ≠ 0 then p.port else p.port
    let ev1 := ev0 ++ [Event.log LogLevel.dbg "Connection requested from port (ntohs(port)).\n"]
    if ntohs port > 1024 then
      ev1 ++ [Event.log LogLevel.err "Refusing connection from port > 1024", Event.close afd]
    else
      let error := p.request_ret
      ev1 ++ [Event.process_request afd error] ++
        (if error ≠ 0 then [Event.log LogLevel.err "Error while processing request"] else []) ++
        [Event.close afd]

/-- The branch `i == 1` of the `for` loop: a readable backend socket. -/
def serve_backend (sfd : Int) (p : PassEnv) : List Event :=
  let error := p.broadcast_ret
  [Event.log LogLevel.dbg "BROADCAST REQUEST.\n", Event.process_broadcast sfd error] ++
    (if error ≠ 0 then [Event.log LogLevel.err "Error while processing broadcast"] else [])

/-- One turn of the `while(1)` loop of `main`. -/
def dispatch_pass (IPv6 : Int) (sfd0 sfd1 : Int) (p : PassEnv) : List Event :=
  if p.select_ret < 0 then
    [Event.select p.select_ret, Event.log LogLevel.sys_err "Select failed"]
  else
    [Event.select p.select_ret] ++
      (if p.isset0 then serve_frontend IPv6 sfd0 p else []) ++
      (if p.isset1 then serve_backend sfd1 p else [])

/-- The `while(1)` loop of `main`, for as many turns as the list is long. -/
def dispatch_loop (IPv6 : Int) (sfd0 sfd1 : Int) : List PassEnv → List Event
  | [] => []
  | p :: rest => dispatch_pass IPv6 sfd0 sfd1 p ++ dispatch_loop IPv6 sfd0 sfd1 rest

/-! ## `main` -/

/-- Everything `main` gets from outside: the results of `getopt`, the C
library, the initial globals and the answers of the system calls, in the
order of the source. -/
structure MainEnv where
  inet : Inet
  mem_ok : Bool
  config_default : String
  lock_default : String
  g0 : Globals
  opts : List GetOpt
  daemon : DaemonEnv
  monitor_ret : Int
  socket6 : Int
  socket4 : Int
  reuse0 : Int
  bind0 : Int
  socket_dgram : Int
  reuse1 : Int
  bind1 : Int
  errno_bind1 : Int
  join : JoinEnv
  errno_join : Int
  passes : List PassEnv

/-- How the observed process stands at the end of the modelled run. -/
inductive Final where
  /-- The process called `exit(status)`. -/
  | exit (status : Int)
  /-- The function `main` returned `value`. -/
  | ret (value : Int)
  /-- The parent is still in its `sleep` loop. -/
  | waiting
  /-- The process is in the dispatch loop, which has no exit. -/
  | serving
  /-- A `NULL` pointer was dereferenced. -/
  | fault
  deriving DecidableEq, Repr

/-- Lines 148 to 204 of `main`: the multicast join, then the dispatch loop. -/
def main_join (e : MainEnv) (g : Globals) (sfd0 sfd1 : Int) : List Event × Final :=
  let serve : List Event :=
    Event.listen sfd1 5 :: dispatch_loop g.IPv6 sfd0 sfd1 e.passes
  if g.IPv6 ≠ 0 ∨ g.multicast_address.isSome then
    match join_group e.inet e.join e.errno_join g sfd1 1 g.backend_port with
    | none => ([], Final.fault)
    | some r =>
      if r.ret ≠ 0 then
        (r.events ++ [Event.log LogLevel.err "Unable to join multicast group.\n"],
         Final.exit EXIT_FAILURE)
      else (r.events ++ serve, Final.serving)
  else (serve, Final.serving)

/-- Lines 119 to 146 of `main`: the backend socket. -/
def main_backend (e : MainEnv) (g : Globals) (sfd0 : Int) : List Event × Final :=
  let sfd1 := e.socket_dgram
  let ev0 := [Event.socket (if g.IPv6 ≠ 0 then PF_INET6 else PF_INET) SOCK_DGRAM sfd1]
  if sfd1 < 0 then
    (ev0 ++ [Event.log LogLevel.sys_err "Socket creation failed"], Final.exit EXIT_FAILURE)
  else
    let ev1 := ev0 ++ [Event.setsockopt sfd1 SockOpt.SO_REUSEADDR e.reuse1]
    if e.reuse1 ≠ 0 then
      (ev1 ++ [Event.log LogLevel.sys_err "Unable to set socket option"], Final.exit EXIT_FAILURE)
    else
      let ev2 := ev1 ++ [Event.bind sfd1 (if g.IPv6 ≠ 0 then AF_INET6 else AF_INET)
                           BindAddr.any (htons g.backend_port) e.bind1]
      if e.bind1 < 0 then
        (ev2 ++ [Event.log LogLevel.sys_err "Unable to bind socket", Event.close sfd1],
         Final.ret (-e.errno_bind1))
      else
        let r := main_join e g sfd0 sfd1
        (ev2 ++ r.1, r.2)

/-- Lines 92 to 116 of `main`: options, address and `listen` of the frontend
socket `sfds[0]`. -/
def main_frontend (e : MainEnv) (g : Globals) (sfd0 : Int) : List Event × Final :=
  let ev0 := [Event.setsockopt sfd0 SockOpt.SO_REUSEADDR e.reuse0]
  if e.reuse0 ≠ 0 then
    (ev0 ++ [Event.log LogLevel.sys_err "Unable to set socket option"], Final.exit EXIT_FAILURE)
  else
    let ev1 := ev0 ++ [Event.bind sfd0 (if g.IPv6 ≠ 0 then AF_INET6 else AF_INET)
                         BindAddr.loopback (htons g.frontend_port) e.bind0]
    if e.bind0 < 0 then
      (ev1 ++ [Event.log LogLevel.sys_err "Unable to bind socket", Event.close sfd0],
       Final.exit EXIT_FAILURE)
    else
      let r := main_backend e g sfd0
      (ev1 ++ [Event.listen sfd0 5] ++ r.1, r.2)

/-- Lines 71 to 90 of `main`: creation of the frontend stream socket, with the
fall back from an unforced IPv6 to IPv4. -/
def main_sockets (e : MainEnv) (g : Globals) : List Event × Final :=
  if g.IPv6 ≠ 0 ∧ e.socket6 < 0 then
    let ev0 := [Event.socket PF_INET6 SOCK_STREAM e.socket6]
    if g.IPv6 = -1 then
      let g1 := { g with IPv6 := 0 }
      let ev1 := ev0 ++ [Event.log LogLevel.dbg "Unable to create IPv6 socket:: (strerror)\n",
                         Event.log LogLevel.dbg "Using IPv4\n",
                         Event.socket PF_INET SOCK_STREAM e.socket4]
      if e.socket4 < 0 then
        (ev1 ++ [Event.log LogLevel.sys_err "Unable to create IPv4 socket"], Final.exit EXIT_FAILURE)
      else
        let r := main_frontend e g1 e.socket4
        (ev1 ++ r.1, r.2)
    else
      (ev0 ++ [Event.log LogLevel.sys_err "Unable to create IPv6 socket"], Final.exit EXIT_FAILURE)
  else if g.IPv6 ≠ 0 then
    let ev0 := [Event.socket PF_INET6 SOCK_STREAM e.socket6, Event.log LogLevel.dbg "Using IPv6\n"]
    let r := main_frontend e g e.socket6
    (ev0 ++ r.1, r.2)
  else
    let ev0 := [Event.log LogLevel.dbg "Using IPv4\n", Event.socket PF_INET SOCK_STREAM e.socket4]
    if e.socket4 < 0 then
      (ev0 ++ [Event.log LogLevel.sys_err "Unable to create IPv4 socket"], Final.exit EXIT_FAILURE)
    else
      let r := main_frontend e g e.socket4
      (ev0 ++ r.1, r.2)

/-- Lines 59 to 68 of `main`: `print_start_msg` and the cluster monitor. -/
def main_start (e : MainEnv) (g : Globals) (msg : Option String) : List Event × Final :=
  let ev0 := [Event.log LogLevel.msg "Starting ccsd (release):\n",
              Event.log LogLevel.msg " Built: (date) (time)\n",
              Event.log LogLevel.msg " (copyright)\n"] ++
    (match msg with
     | some m => [Event.log LogLevel.msg m]
     | none => []) ++
    [Event.start_cluster_monitor_thread e.monitor_ret]
  if e.monitor_ret ≠ 0 then
    (ev0 ++ [Event.log LogLevel.err "Unable to create thread.\n"], Final.exit EXIT_FAILURE)
  else
    let r := main_sockets e g
    (ev0 ++ r.1, r.2)

/-- The function `main`, for the process described by `e.daemon`. -/
def main (e : MainEnv) : List Event × Final :=
  match parse_cli_args e.inet e.mem_ok e.config_default e.lock_default e.g0 e.opts with
  | ParseResult.exited status out => (out.map Event.printed, Final.exit status)
  | ParseResult.returned g msg out =>
    let d := daemonize e.daemon g
    let ev0 := out.map Event.printed ++ d.1
    match d.2 with
    | DaemonResult.exit status => (ev0, Final.exit status)
    | DaemonResult.waiting => (ev0, Final.waiting)
    | DaemonResult.proceed =>
      let r := main_start e g msg
      (ev0 ++ r.1, r.2)

/-! ## Observations on traces -/

/-- Log output, as opposed to calls that act on descriptors or processes. -/
def Event.isLog : Event → Bool
  | Event.log _ _ => true
  | _ => false

/-- The calls of a trace: the trace without its log lines. -/
def calls (evs : List Event) : List Event :=
  evs.filter (fun ev => !ev.isLog)

/-- A call of `socket`. -/
def Event.isSocket : Event → Bool
  | Event.socket _ _ _ => true
  | _ => false

/-- The calls of `socket` in a trace. -/
def sockets (evs : List Event) : List Event :=
  evs.filter Event.isSocket

/-! ## Predicates used in the statements -/

/-- The loop of `parse_cli_args` gets through the options `pre` without
leaving: the state in which it meets the option that follows them. -/
def parse_upto (inet : Inet) : List GetOpt → PState → Option PState
  | [], s => some s
  | o :: rest, s =>
    match parse_switch inet o s with
    | Step.next s1 => parse_upto inet rest s1
    | _ => none

/-- The signal of a `kill(getppid(), sig)`. -/
def Event.killSig : Event → Option Nat
  | Event.kill_parent sig => some sig
  | _ => none

/-- The signals a trace sends to the parent process. -/
def kills (evs : List Event) : List Nat :=
  evs.filterMap Event.killSig

/-- The value `parent_exit_handler` stores for a signal. -/
def handshake_status (sig : Nat) : Int :=
  if sig = SIGUSR1 then EXIT_FAILURE else EXIT_SUCCESS

/-- The parent has not been signalled yet, or its `parent_exit_code` is the
status of the last signal handled. -/
def Parent.consistent (p : Parent) : Prop :=
  (p.parent_exit_code = -1 ∧ p.handled = []) ∨
  ∃ sig, p.handled.getLast? = some sig ∧ p.parent_exit_code = handshake_status sig

/-- In a list of `socket` calls: every datagram socket has the family of a
stream socket that was created, and no created stream socket has another
family. -/
def SameFamily (S : List Event) : Prop :=
  ∀ dom r, Event.socket dom SOCK_DGRAM r ∈ S →
    ∃ sfd0, 0 ≤ sfd0 ∧ Event.socket dom SOCK_STREAM sfd0 ∈ S ∧
      ∀ dom1 fd1, 0 ≤ fd1 → Event.socket dom1 SOCK_STREAM fd1 ∈ S → dom1 = dom

/-! ## Sample inputs -/

/-- An address parser that knows the two default groups of the daemon. -/
def sample_inet : Inet :=
  { pton6 := fun s =>
      if s = "ff02::3:1" then some [255, 2, 0, 0, 0, 0, 0, 0, 0, 0, 0, 0, 0, 3, 0, 1] else none,
    pton4 := fun s => if s = "224.0.2.5" then some [224, 0, 2, 5] else none }

/-- Globals before `parse_cli_args`: the family is not decided, no multicast
address. -/
def sample_globals : Globals :=
  { IPv6 := -1, multicast_address := none, backend_port := 50007, cluster_base_port := 50008,
    frontend_port := 50006, ttl := 1, config_file_location := none, lockfile_location := none,
    flags := 0 }

def sample_config : String := "/etc/cluster/cluster.conf"

def sample_lockfile : String := "/var/run/sistina/ccsd.pid"

/-- Answers of a system in which every call of `create_lockfile` succeeds;
the process id is 4242. -/
def sample_lock : LockEnv :=
  { stat := ⟨0, none⟩, is_dir := true, mkdir := ⟨0, none⟩, open_ := ⟨5, none⟩,
    fcntl := ⟨0, none⟩, ftruncate := ⟨0, none⟩, write := ⟨5, none⟩, close := ⟨0, none⟩,
    unlink := ⟨0, none⟩, log_errno := none, pid := 4242 }

/-- The detached worker (`fork` returned 0) on that system. -/
def sample_daemon : DaemonEnv :=
  { lock := sample_lock, errno0 := 0, fork_ret := 0, early := [], sleeps := [] }

/-- A run of `main` in which every call succeeds, for the given options. -/
def sample_env (opts : List GetOpt) : MainEnv :=
  { inet := sample_inet, mem_ok := true, config_default := sample_config,
    lock_default := sample_lockfile, g0 := sample_globals, opts := opts,
    daemon := sample_daemon, monitor_ret := 0, socket6 := 3, socket4 := 3, reuse0 := 0,
    bind0 := 0, socket_dgram := 4, reuse1 := 0, bind1 := 0, errno_bind1 := 0,
    join := { mc_loop := ⟨0, none⟩, mc_add := ⟨0, none⟩ }, errno_join := 0, passes := [] }

/-- The sample run, except that the request to join the multicast group is
refused with `ENODEV` (19). -/
def refused_join_env : MainEnv :=
  { sample_env [] with join := { mc_loop := ⟨0, none⟩, mc_add := ⟨-1, some 19⟩ } }

/-- The sample run, except that no IPv6 socket can be created. -/
def no_ipv6_env : MainEnv :=
  { sample_env [] with socket6 := -1 }

/-- The sample system, except that another process holds the lock: the lock
request fails with `EAGAIN` (11). -/
def held_lock : LockEnv :=
  { sample_lock with fcntl := ⟨-1, some 11⟩ }

/-- The detached worker when the lock is held. -/
def held_worker : DaemonEnv :=
  { sample_daemon with lock := held_lock }

/-- The invoking process: `fork` returned the worker's id, and `SIGUSR1`
arrives during the second `sleep`. -/
def waiting_parent : DaemonEnv :=
  { sample_daemon with fork_ret := 4243, sleeps := [[], [SIGUSR1]] }

/-- A run of `main` in the foreground (`-n`) while the lock is held. -/
def held_env : MainEnv :=
  { sample_env [GetOpt.mk 'n' ""] with daemon := held_worker }

/-- The sample system, except that the `write` of the pid line fails: it
returns -1 and stores `ENOSPC` (28) in `errno`. -/
def failed_write_lock : LockEnv :=
  { sample_lock with write := ⟨-1, some 28⟩ }

/-- The sample system, except that the `write` of the pid line is short: 2 of
the 5 bytes are written, and `errno` is left alone. -/
def short_write_lock : LockEnv :=
  { sample_lock with write := ⟨2, none⟩ }

/-- The invoking process in daemon mode when `fork` fails: it returns -1, no
worker exists and no signal arrives. -/
def failed_fork : DaemonEnv :=
  { sample_daemon with fork_ret := -1 }

/-! ## Lemmas -/

theorem dispatch_loop_append (IPv6 sfd0 sfd1 : Int) (xs ys : List PassEnv) :
    dispatch_loop IPv6 sfd0 sfd1 (xs ++ ys) =
      dispatch_loop IPv6 sfd0 sfd1 xs ++ dispatch_loop IPv6 sfd0 sfd1 ys := by
  induction xs with
  | nil => simp [dispatch_loop]
  | cons x xs ih => simp [dispatch_loop, ih]

/-! ## C1: admission policy of the dispatch loop -/

/-- C1: in the dispatch loop, a turn in which `select` succeeds, the frontend
socket is readable and `accept` returns a descriptor `afd` contributes exactly
the following calls, in this order: `select`, `accept`, then for a peer port
above 1024 (host byte order) only `close(afd)`, for a port of at most 1024
one `process_request(afd)` followed by `close(afd)` whatever the handler
returned, and finally the backend call if the backend socket is readable. -/
theorem dispatch_admission (IPv6 sfd0 sfd1 : Int) (before after : List PassEnv) (p : PassEnv)
    (hsel : 0 ≤ p.select_ret) (hset : p.isset0 = true) (hacc : 0 ≤ p.accept_ret) :
    dispatch_loop IPv6 sfd0 sfd1 (before ++ p :: after) =
        dispatch_loop IPv6 sfd0 sfd1 before ++ dispatch_pass IPv6 sfd0 sfd1 p ++
          dispatch_loop IPv6 sfd0 sfd1 after ∧
    calls (dispatch_pass IPv6 sfd0 sfd1 p) =
      [Event.select p.select_ret, Event.accept sfd0 p.accept_ret] ++
        (if 1024 < ntohs p.port then [Event.close p.accept_ret]
         else [Event.process_request p.accept_ret p.request_ret, Event.close p.accept_ret]) ++
        (if p.isset1 then [Event.process_broadcast sfd1 p.broadcast_ret] else []) := by
  refine ⟨?_, ?_⟩
  · rw [dispatch_loop_append]
    simp [dispatch_loop, List.append_assoc]
  · have h1 : ¬ p.select_ret < 0 := by omega
    have h2 : ¬ p.accept_ret < 0 := by omega
    by_cases hp : 1024 < ntohs p.port <;> by_cases hb : p.isset1 = true <;>
      by_cases hr : p.request_ret = 0 <;> by_cases hq : p.broadcast_ret = 0 <;>
      simp [dispatch_pass, serve_frontend, serve_backend, calls, Event.isLog, h1, h2, hset,
        hp, hb, hr, hq, List.filter]

/-- C1 at a concrete turn: a connection from port 1023 (stored as `0xff03` in
network byte order) on descriptor 7. -/
theorem dispatch_admission_witness :
    calls (dispatch_pass 1 3 4
        { select_ret := 1, isset0 := true, isset1 := false, accept_ret := 7,
          port := 65283, request_ret := -5, broadcast_ret := 0 }) =
      [Event.select 1, Event.accept 3 7, Event.process_request 7 (-5), Event.close 7] :=
  (dispatch_admission 1 3 4 [] []
    { select_ret := 1, isset0 := true, isset1 := false, accept_ret := 7,
      port := 65283, request_ret := -5, broadcast_ret := 0 }
    (by decide) rfl (by decide)).2

theorem parse_upto_loop (inet : Inet) (rest : List GetOpt) (pre : List GetOpt) :
    ∀ s s1 : PState, parse_upto inet pre s = some s1 →
      parse_loop inet (pre ++ rest) s = parse_loop inet rest s1 := by
  induction pre with
  | nil => intro s s1 h; simp [parse_upto] at h; simp [h]
  | cons o pre ih =>
    intro s s1 h
    simp only [parse_upto] at h
    cases hs : parse_switch inet o s with
    | next s2 =>
      rw [hs] at h
      simp only [List.cons_append, parse_loop, hs]
      exact ih s2 s1 h
    | fail s2 => rw [hs] at h; simp at h
    | exit status s2 => rw [hs] at h; simp at h

/-! ## C2: a family flag against a multicast address of the other family -/

/-- C6, as stated, fails for an unknown flag: `getopt` answers `?`, the
default branch prints the usage text on `stderr` and the process exits with
failure status. -/
theorem unknown_flag_counterexample :
    main (sample_env [GetOpt.mk '?' ""]) =
      ([Event.printed (Printed.usage Stream.stderr)], Final.exit EXIT_FAILURE) := by
  decide

/-- C6, amended: when the loop of `parse_cli_args` meets `-h` or `-V`, the
process prints the usage text on `stdout`, or the version lines, and exits with
success status; when it meets an unknown flag it prints the usage text on
`stderr` and exits with failure status.  In the three cases the trace of `main`
holds nothing but what `parse_cli_args` printed: `daemonize` is not reached. -/
theorem info_options_exit (e : MainEnv) (pre post : List GetOpt) (o : GetOpt) (s1 : PState)
    (hmem : e.mem_ok = true) (hopts : e.opts = pre ++ o :: post)
    (hpre : parse_upto e.inet pre (parse_init e.config_default e.lock_default e.g0) = some s1) :
    (o.c = 'h' → main e =
      ((s1.out ++ [Printed.usage Stream.stdout]).map Event.printed, Final.exit EXIT_SUCCESS)) ∧
    (o.c = 'V' → main e =
      ((s1.out ++ [Printed.version]).map Event.printed, Final.exit EXIT_SUCCESS)) ∧
    (o.c = '?' → main e =
      ((s1.out ++ [Printed.usage Stream.stderr]).map Event.printed, Final.exit EXIT_FAILURE)) := by
  have hl := parse_upto_loop e.inet (o :: post) pre _ s1 hpre
  refine ⟨?_, ?_, ?_⟩ <;> intro hc
  · have hs : parse_switch e.inet o s1 =
        Step.exit EXIT_SUCCESS { s1 with out := s1.out ++ [Printed.usage Stream.stdout] } := by
      simp +decide [parse_switch, hc]
    simp [main, parse_cli_args, hmem, hopts, hl, parse_loop, hs]
  · have hs : parse_switch e.inet o s1 =
        Step.exit EXIT_SUCCESS { s1 with out := s1.out ++ [Printed.version] } := by
      simp +decide [parse_switch, hc]
    simp [main, parse_cli_args, hmem, hopts, hl, parse_loop, hs]
  · have hs : parse_switch e.inet o s1 =
        Step.fail ({ s1 with out := s1.out ++ [Printed.usage Stream.stderr] }).einval := by
      simp +decide [parse_switch, hc]
    simp +decide [main, parse_cli_args, hmem, hopts, hl, parse_loop, hs, parse_finish,
      PState.einval, EINVAL]

/-- C6 at `-v -V`: the version lines, status success, nothing else. -/
theorem info_options_exit_witness :
    main (sample_env [GetOpt.mk 'v' "", GetOpt.mk 'V' ""]) =
      ([Event.printed Printed.version], Final.exit EXIT_SUCCESS) :=
  (info_options_exit (sample_env [GetOpt.mk 'v' "", GetOpt.mk 'V' ""]) [GetOpt.mk 'v' ""] []
    (GetOpt.mk 'V' "") _ rfl rfl rfl).2.1 rfl


/-! ## Decimal digits -/

theorem digit_char (k : Nat) (hk : k < 10) :
    isdigit (Char.ofNat (48 + k)) = true ∧ (Char.ofNat (48 + k)).toNat - 48 = k ∧
      isspace (Char.ofNat (48 + k)) = false ∧ Char.ofNat (48 + k) ≠ '-' ∧
      Char.ofNat (48 + k) ≠ '+' := by
  interval_cases k <;> decide

theorem scanDigits_decimalAux (rest : List Char) : ∀ (fuel n : Nat) (acc : List Char),
    n < fuel → scanDigits (decimalAux fuel n acc ++ rest) 0 = scanDigits (acc ++ rest) n := by
  intro fuel
  induction fuel with
  | zero => intro n acc h; omega
  | succ fuel ih =>
    intro n acc h
    have hd := digit_char (n % 10) (Nat.mod_lt _ (by decide))
    simp only [decimalAux]
    by_cases h0 : n / 10 = 0
    · simp only [h0, if_true, List.cons_append, scanDigits, hd.1, hd.2.1]
      congr 1
      omega
    · simp only [h0, if_false]
      rw [ih (n / 10) _ (by omega)]
      simp only [List.cons_append, scanDigits, hd.1, hd.2.1, if_true]
      congr 1
      omega

/-- The representation starts with a digit. -/
theorem decimalAux_head : ∀ (fuel n : Nat) (acc : List Char),
    ∃ k ds, k < 10 ∧ decimalAux (fuel + 1) n acc = Char.ofNat (48 + k) :: ds := by
  intro fuel
  induction fuel with
  | zero =>
    intro n acc
    refine ⟨n % 10, acc, Nat.mod_lt _ (by decide), ?_⟩
    simp [decimalAux]
  | succ fuel ih =>
    intro n acc
    by_cases h0 : n / 10 = 0
    · refine ⟨n % 10, acc, Nat.mod_lt _ (by decide), ?_⟩
      rw [decimalAux]
      simp [h0]
    · obtain ⟨k, ds, hk, he⟩ := ih (n / 10) (Char.ofNat (48 + n % 10) :: acc)
      refine ⟨k, ds, hk, ?_⟩
      rw [decimalAux]
      simp only [h0, if_false]
      exact he

theorem scanDigits_decimal (n : Nat) : scanDigits (decimal n) 0 = n := by
  have h := scanDigits_decimalAux [] (n + 1) n [] (by omega)
  simpa [decimal, scanDigits] using h

/-- The function `atoi` reads a decimal representation back as long as the
number fits in an `int`. -/
theorem atoi_decimal (n : Nat) (h : n < 2 ^ 31) : atoi (decimal n) = n := by
  obtain ⟨k, ds, hk, he⟩ := decimalAux_head n n []
  have hd := digit_char k hk
  have hs : scanDigits (decimal n) 0 = n := scanDigits_decimal n
  have e : strtol (decimal n) = min LONG_MAX (scanDigits (decimal n) 0 : Int) := by
    unfold decimal at *
    rw [he]
    unfold strtol
    simp only [skipSpace, hd.2.2.1, Bool.false_eq_true, if_false]
    split
    · rename_i heq; simp only [List.cons.injEq] at heq; exact absurd heq.1 hd.2.2.2.1
    · rename_i heq; simp only [List.cons.injEq] at heq; exact absurd heq.1 hd.2.2.2.2
    · rfl
  unfold atoi
  rw [e, hs]
  unfold toInt32 LONG_MAX
  have h1 : (n : Int) < 2 ^ 31 := by exact_mod_cast h
  have h2 : (0 : Int) ≤ n := Int.natCast_nonneg n
  have h3 : min ((2 : Int) ^ 63 - 1) (n : Int) = n := by
    apply min_eq_right
    omega
  rw [h3]
  omega


/-! ## C3: the port selector `-P` -/

set_option maxRecDepth 20000 in
/-- C3, as stated, fails for a number that does not fit in an `int`: after
`-P b:2147483648` the value of `backend_port` is `-2147483648`. -/
theorem port_option_counterexample :
    String.mk ('b' :: ':' :: decimal 2147483648) = "b:2147483648" ∧
    parse_cli_args sample_inet true sample_config sample_lockfile sample_globals
        [GetOpt.mk 'P' "b:2147483648"] =
      ParseResult.returned
        { sample_globals with
            config_file_location := some sample_config,
            lockfile_location := some sample_lockfile,
            backend_port := -2147483648 }
        (some "  Backend Port:: -2147483648\n") [] := by
  constructor
  · apply String.ext
    rfl
  · rfl

/-- C3, amended: `-P` is accepted exactly when the first character of its
argument is `b`, `c` or `f` and the second is `:`.  When it is accepted and a
decimal number `n` of at most 2147483647 follows the colon, the port selected
by the tag becomes `n` and nothing else in the configuration changes.  Every
other argument of `-P` ends the run: `main` prints the error text and exits
with failure status, and `daemonize` is not reached. -/
theorem port_option (e : MainEnv) (pre post : List GetOpt) (optarg : String) (s : PState)
    (hmem : e.mem_ok = true) (hopts : e.opts = pre ++ GetOpt.mk 'P' optarg :: post)
    (hpre : parse_upto e.inet pre (parse_init e.config_default e.lock_default e.g0) = some s) :
    ((∃ s1, parse_switch e.inet (GetOpt.mk 'P' optarg) s = Step.next s1) ↔
      (cchar optarg 1 = ':' ∧
        (cchar optarg 0 = 'b' ∨ cchar optarg 0 = 'c' ∨ cchar optarg 0 = 'f'))) ∧
    (¬ (cchar optarg 1 = ':' ∧
        (cchar optarg 0 = 'b' ∨ cchar optarg 0 = 'c' ∨ cchar optarg 0 = 'f')) →
      main e = ((s.out ++ [Printed.err bad_P_text]).map Event.printed,
        Final.exit EXIT_FAILURE)) ∧
    (∀ n : Nat, n < 2 ^ 31 →
      (optarg = String.mk ('b' :: ':' :: decimal n) →
        ∃ s1, parse_switch e.inet (GetOpt.mk 'P' optarg) s = Step.next s1 ∧
          s1.g = { s.g with backend_port := n }) ∧
      (optarg = String.mk ('c' :: ':' :: decimal n) →
        ∃ s1, parse_switch e.inet (GetOpt.mk 'P' optarg) s = Step.next s1 ∧
          s1.g = { s.g with cluster_base_port := n }) ∧
      (optarg = String.mk ('f' :: ':' :: decimal n) →
        ∃ s1, parse_switch e.inet (GetOpt.mk 'P' optarg) s = Step.next s1 ∧
          s1.g = { s.g with frontend_port := n })) := by
  have hsw : parse_switch e.inet (GetOpt.mk 'P' optarg) s = case_P optarg s := by
    simp +decide [parse_switch]
  have hl := parse_upto_loop e.inet (GetOpt.mk 'P' optarg :: post) pre _ s hpre
  refine ⟨?_, ?_, ?_⟩
  · rw [hsw]
    unfold case_P
    by_cases h1 : cchar optarg 1 = ':'
    · by_cases hb : cchar optarg 0 = 'b'
      · simp [h1, hb]
      · by_cases hc : cchar optarg 0 = 'c'
        · simp [h1, hb, hc]
        · by_cases hf : cchar optarg 0 = 'f'
          · simp [h1, hb, hc, hf]
          · simp [h1, hb, hc, hf]
    · simp [h1]
  · intro hno
    have hs : case_P optarg s = Step.fail (s.eprint bad_P_text).einval := by
      unfold case_P
      by_cases h1 : cchar optarg 1 = ':'
      · have h2 : ¬ (cchar optarg 0 = 'b' ∨ cchar optarg 0 = 'c' ∨ cchar optarg 0 = 'f') :=
          fun h => hno ⟨h1, h⟩
        simp only [not_or] at h2
        simp [h1, h2.1, h2.2.1, h2.2.2]
      · simp [h1]
    simp +decide [main, parse_cli_args, hmem, hopts, hl, parse_loop, hsw, hs, parse_finish,
      PState.einval, PState.eprint, EINVAL]
  · intro n hn
    have ha := atoi_decimal n hn
    refine ⟨?_, ?_, ?_⟩ <;> intro ho <;> subst ho <;> rw [hsw]
    · have hc : case_P (String.mk ('b' :: ':' :: decimal n)) s =
          Step.next ({ s with g := { s.g with backend_port := atoi (decimal n) } }.say
            ("  Backend Port:: " ++ String.mk (fmt_d (atoi (decimal n))) ++ "\n")) := by
        simp +decide [case_P, cchar, cdrop]
      exact ⟨_, hc, by simp [PState.say, ha]⟩
    · have hc : case_P (String.mk ('c' :: ':' :: decimal n)) s =
          Step.next ({ s with g := { s.g with cluster_base_port := atoi (decimal n) } }.say
            ("  Cluster base port:: " ++ String.mk (fmt_d (atoi (decimal n))) ++ "\n")) := by
        simp +decide [case_P, cchar, cdrop]
      exact ⟨_, hc, by simp [PState.say, ha]⟩
    · have hc : case_P (String.mk ('f' :: ':' :: decimal n)) s =
          Step.next ({ s with g := { s.g with frontend_port := atoi (decimal n) } }.say
            ("  Frontend Port:: " ++ String.mk (fmt_d (atoi (decimal n))) ++ "\n")) := by
        simp +decide [case_P, cchar, cdrop]
      exact ⟨_, hc, by simp [PState.say, ha]⟩


/-- C3 at `-P f:50006`. -/
theorem port_option_witness :
    ∃ s1, parse_switch sample_inet (GetOpt.mk 'P' (String.mk ('f' :: ':' :: decimal 50006)))
        (parse_init sample_config sample_lockfile sample_globals) = Step.next s1 ∧
      s1.g = { (parse_init sample_config sample_lockfile sample_globals).g with
                frontend_port := (50006 : Nat) } :=
  ((port_option
      (sample_env [GetOpt.mk 'P' (String.mk ('f' :: ':' :: decimal 50006))]) [] []
      (String.mk ('f' :: ':' :: decimal 50006))
      (parse_init sample_config sample_lockfile sample_globals)
      rfl rfl rfl).2.2 50006 (by decide)).2.2 rfl


/-! ## Traces without `socket` calls -/

theorem sockets_nil : sockets [] = [] := rfl

theorem sockets_cons (ev : Event) (l : List Event) :
    sockets (ev :: l) = if ev.isSocket = true then ev :: sockets l else sockets l := by
  simp only [sockets, List.filter_cons]

theorem sockets_append (a b : List Event) : sockets (a ++ b) = sockets a ++ sockets b := by
  simp [sockets]

theorem mem_sockets (ev : Event) (l : List Event) :
    ev ∈ sockets l ↔ ev ∈ l ∧ ev.isSocket = true := by
  simp [sockets]

theorem sockets_printed (out : List Printed) : sockets (out.map Event.printed) = [] := by
  induction out with
  | nil => rfl
  | cons p out ih => simp [sockets_cons, Event.isSocket, ih]

theorem sockets_replicate_sleep (k : Nat) : sockets (List.replicate k (Event.sleep 5)) = [] := by
  induction k with
  | zero => rfl
  | succ k ih => simp [List.replicate_succ, sockets_cons, Event.isSocket, ih]

theorem sockets_create_lockfile (e : LockEnv) (errno0 : Int) (lockfile : String) :
    sockets (create_lockfile e errno0 lockfile).1 = [] := by
  unfold create_lockfile
  simp only []
  split_ifs <;> simp [sockets_append, sockets_cons, sockets_nil, Event.isSocket]

theorem sockets_verbose_events (g : Globals) : sockets (verbose_events g) = [] := by
  unfold verbose_events
  split_ifs <;> simp [sockets_cons, sockets_nil, Event.isSocket]

theorem sockets_daemonize (e : DaemonEnv) (g : Globals) : sockets (daemonize e g).1 = [] := by
  have hl := sockets_create_lockfile e.lock e.errno0 (lockfile_path g)
  have hv := sockets_verbose_events g
  unfold daemonize
  simp only []
  split_ifs <;>
    simp [sockets_append, sockets_cons, sockets_nil, hl, hv, sockets_replicate_sleep,
      install_sig_handler, Event.isSocket]

theorem sockets_dispatch_loop (IPv6 sfd0 sfd1 : Int) (ps : List PassEnv) :
    sockets (dispatch_loop IPv6 sfd0 sfd1 ps) = [] := by
  induction ps with
  | nil => rfl
  | cons p ps ih =>
    simp only [dispatch_loop, sockets_append, ih, List.append_nil]
    unfold dispatch_pass serve_frontend serve_backend
    simp only []
    split_ifs <;> simp [sockets_append, sockets_cons, sockets_nil, Event.isSocket]

theorem sockets_join_group (inet : Inet) (e : JoinEnv) (errno0 : Int) (g : Globals)
    (sfd loopback port : Int) (r : JoinResult)
    (h : join_group inet e errno0 g sfd loopback port = some r) : sockets r.events = [] := by
  unfold join_group at h
  cases ha : join_group_addr g with
  | none => rw [ha] at h; simp at h
  | some a =>
    rw [ha] at h
    simp only [] at h
    split_ifs at h <;> simp only [Option.some.injEq] at h <;> subst h <;>
      simp [sockets_append, sockets_cons, sockets_nil, Event.isSocket]

theorem join_group_ret (inet : Inet) (e : JoinEnv) (errno0 : Int) (g : Globals)
    (sfd loopback port : Int) (r : JoinResult)
    (h : join_group inet e errno0 g sfd loopback port = some r) : r.ret = 0 := by
  unfold join_group at h
  cases ha : join_group_addr g with
  | none => rw [ha] at h; simp at h
  | some a =>
    rw [ha] at h
    simp only [] at h
    split_ifs at h <;> simp only [Option.some.injEq] at h <;> subst h <;> rfl

theorem sockets_main_join (e : MainEnv) (g : Globals) (sfd0 sfd1 : Int) :
    sockets (main_join e g sfd0 sfd1).1 = [] := by
  have hd := sockets_dispatch_loop g.IPv6 sfd0 sfd1 e.passes
  unfold main_join
  simp only []
  split_ifs with h1
  · cases hj : join_group e.inet e.join e.errno_join g sfd1 1 g.backend_port with
    | none => simp [sockets_nil]
    | some r =>
      have hs := sockets_join_group _ _ _ _ _ _ _ r hj
      simp only []
      split_ifs <;>
        simp [sockets_append, sockets_cons, sockets_nil, hs, hd, Event.isSocket]
  · simp [sockets_cons, hd, Event.isSocket]


/-! ## The `socket` calls of `main` -/

theorem sockets_main_backend (e : MainEnv) (g : Globals) (sfd0 : Int) :
    sockets (main_backend e g sfd0).1 =
      [Event.socket (if g.IPv6 ≠ 0 then PF_INET6 else PF_INET) SOCK_DGRAM e.socket_dgram] := by
  have hj := sockets_main_join e g sfd0 e.socket_dgram
  unfold main_backend
  simp only []
  split_ifs <;> simp [sockets_append, sockets_cons, sockets_nil, hj, Event.isSocket]

theorem sockets_main_frontend (e : MainEnv) (g : Globals) (sfd0 : Int) :
    sockets (main_frontend e g sfd0).1 = [] ∨
    sockets (main_frontend e g sfd0).1 =
      [Event.socket (if g.IPv6 ≠ 0 then PF_INET6 else PF_INET) SOCK_DGRAM e.socket_dgram] := by
  have hb := sockets_main_backend e g sfd0
  generalize (if g.IPv6 ≠ 0 then PF_INET6 else PF_INET) = fam at hb ⊢
  unfold main_frontend
  simp only []
  split_ifs <;> simp [sockets_append, sockets_cons, sockets_nil, hb, Event.isSocket]

theorem sameFamily_main_sockets (e : MainEnv) (g : Globals) :
    SameFamily (sockets (main_sockets e g).1) := by
  unfold main_sockets
  simp only []
  split_ifs with h1 h2 h3 h4 h5
  · -- soft preference, both creations fail
    intro dom r hm
    simp [sockets_append, sockets_cons, sockets_nil, Event.isSocket, SOCK_DGRAM, SOCK_STREAM] at hm
  · -- soft preference, fall back to IPv4
    have hf := sockets_main_frontend e { g with IPv6 := 0 } e.socket4
    intro dom r hm
    rcases hf with hf | hf
    · simp [sockets_append, sockets_cons, sockets_nil, Event.isSocket, SOCK_DGRAM, SOCK_STREAM,
        hf] at hm
    · simp [sockets_append, sockets_cons, sockets_nil, Event.isSocket, SOCK_DGRAM, SOCK_STREAM,
        hf] at hm
      refine ⟨e.socket4, by omega, ?_, ?_⟩
      · simp [sockets_append, sockets_cons, sockets_nil, Event.isSocket, hf, hm.1]
      · intro dom1 fd1 h0 hm1
        simp [sockets_append, sockets_cons, sockets_nil, Event.isSocket, SOCK_DGRAM,
          SOCK_STREAM, hf] at hm1
        rcases hm1 with ⟨_, hx⟩ | ⟨hx, _⟩
        · omega
        · rw [hx, hm.1]
  · -- forced IPv6 fails
    intro dom r hm
    simp [sockets_append, sockets_cons, sockets_nil, Event.isSocket, SOCK_DGRAM, SOCK_STREAM] at hm
  · -- IPv6
    have hf := sockets_main_frontend e g e.socket6
    have h6 : 0 ≤ e.socket6 := by
      by_contra hc
      exact h1 ⟨h4, by omega⟩
    intro dom r hm
    rcases hf with hf | hf
    · simp [sockets_append, sockets_cons, sockets_nil, Event.isSocket, SOCK_DGRAM, SOCK_STREAM,
        hf] at hm
    · simp [sockets_append, sockets_cons, sockets_nil, Event.isSocket, SOCK_DGRAM, SOCK_STREAM,
        hf, h4] at hm
      refine ⟨e.socket6, h6, ?_, ?_⟩
      · simp [sockets_append, sockets_cons, sockets_nil, Event.isSocket, hf, hm.1]
      · intro dom1 fd1 h0 hm1
        simp [sockets_append, sockets_cons, sockets_nil, Event.isSocket, SOCK_DGRAM,
          SOCK_STREAM, hf, h4] at hm1
        rw [hm1.1, hm.1]
  · -- IPv4, creation fails
    intro dom r hm
    simp [sockets_append, sockets_cons, sockets_nil, Event.isSocket, SOCK_DGRAM, SOCK_STREAM] at hm
  · -- IPv4
    have hf := sockets_main_frontend e g e.socket4
    have hg : g.IPv6 = 0 := by
      by_contra hc
      exact h4 hc
    intro dom r hm
    rcases hf with hf | hf
    · simp [sockets_append, sockets_cons, sockets_nil, Event.isSocket, SOCK_DGRAM, SOCK_STREAM,
        hf] at hm
    · simp [sockets_append, sockets_cons, sockets_nil, Event.isSocket, SOCK_DGRAM, SOCK_STREAM,
        hf, hg] at hm
      refine ⟨e.socket4, by omega, ?_, ?_⟩
      · simp [sockets_append, sockets_cons, sockets_nil, Event.isSocket, hf, hm.1]
      · intro dom1 fd1 h0 hm1
        simp [sockets_append, sockets_cons, sockets_nil, Event.isSocket, SOCK_DGRAM,
          SOCK_STREAM, hf, hg] at hm1
        rw [hm1.1, hm.1]

theorem sockets_main (e : MainEnv) :
    sockets (main e).1 = [] ∨ ∃ g, sockets (main e).1 = sockets (main_sockets e g).1 := by
  unfold main
  cases parse_cli_args e.inet e.mem_ok e.config_default e.lock_default e.g0 e.opts with
  | exited status out => left; simp [sockets_printed]
  | returned g msg out =>
    have hd := sockets_daemonize e.daemon g
    simp only []
    cases hr : (daemonize e.daemon g).2 with
    | exit status => left; simp [sockets_append, sockets_printed, hd]
    | waiting => left; simp [sockets_append, sockets_printed, hd]
    | proceed =>
      simp only [sockets_append, sockets_printed, hd, List.nil_append]
      unfold main_start
      simp only []
      by_cases hm : e.monitor_ret ≠ 0
      · left
        cases msg <;> simp [hm, sockets_append, sockets_cons, sockets_nil, Event.isSocket]
      · right
        refine ⟨g, ?_⟩
        cases msg <;> simp [hm, sockets_append, sockets_cons, sockets_nil, Event.isSocket]


/-! ## C9: family of the two sockets -/

/-- C9: when the IPv6 stream socket cannot be created and the family setting
is the unforced default (-1), `main` sets the family to IPv4 (0), creates an
IPv4 stream socket and goes on with it; when the setting is the forced 1, the
process exits with failure status after the one `socket` call.  In every run
of `main`, a datagram socket is created only after a stream socket of the same
family was created successfully, and no successfully created stream socket has
another family. -/
theorem socket_family (e : MainEnv) :
    (∀ g : Globals, g.IPv6 = -1 → e.socket6 < 0 → 0 ≤ e.socket4 →
      main_sockets e g =
        ([Event.socket PF_INET6 SOCK_STREAM e.socket6,
          Event.log LogLevel.dbg "Unable to create IPv6 socket:: (strerror)\n",
          Event.log LogLevel.dbg "Using IPv4\n",
          Event.socket PF_INET SOCK_STREAM e.socket4] ++
            (main_frontend e { g with IPv6 := 0 } e.socket4).1,
         (main_frontend e { g with IPv6 := 0 } e.socket4).2)) ∧
    (∀ g : Globals, g.IPv6 = 1 → e.socket6 < 0 →
      main_sockets e g =
        ([Event.socket PF_INET6 SOCK_STREAM e.socket6,
          Event.log LogLevel.sys_err "Unable to create IPv6 socket"],
         Final.exit EXIT_FAILURE)) ∧
    (∀ dom r, Event.socket dom SOCK_DGRAM r ∈ (main e).1 →
      ∃ sfd0, 0 ≤ sfd0 ∧ Event.socket dom SOCK_STREAM sfd0 ∈ (main e).1 ∧
        ∀ dom1 fd1, 0 ≤ fd1 → Event.socket dom1 SOCK_STREAM fd1 ∈ (main e).1 → dom1 = dom) := by
  refine ⟨?_, ?_, ?_⟩
  · intro g hg h6 h4
    have h4n : ¬ e.socket4 < 0 := by omega
    simp +decide [main_sockets, hg, h6, h4n]
  · intro g hg h6
    simp +decide [main_sockets, hg, h6]
  · have key : SameFamily (sockets (main e).1) := by
      rcases sockets_main e with h | ⟨g, h⟩
      · rw [h]; intro dom r hm; simp at hm
      · rw [h]; exact sameFamily_main_sockets e g
    intro dom r hm
    obtain ⟨sfd0, h0, hs, hu⟩ := key dom r ((mem_sockets _ _).2 ⟨hm, rfl⟩)
    refine ⟨sfd0, h0, ((mem_sockets _ _).1 hs).1, ?_⟩
    intro dom1 fd1 h1 hm1
    exact hu dom1 fd1 h1 ((mem_sockets _ _).2 ⟨hm1, rfl⟩)

/-- C9 on a host without IPv6 and with default options: the run falls back to
IPv4 and creates both sockets in that family. -/
theorem socket_family_witness :
    sockets (main no_ipv6_env).1 =
      [Event.socket PF_INET6 SOCK_STREAM (-1), Event.socket PF_INET SOCK_STREAM 3,
       Event.socket PF_INET SOCK_DGRAM 4] ∧
    ∃ sfd0, 0 ≤ sfd0 ∧ Event.socket PF_INET SOCK_STREAM sfd0 ∈ (main no_ipv6_env).1 ∧
      ∀ dom1 fd1, 0 ≤ fd1 → Event.socket dom1 SOCK_STREAM fd1 ∈ (main no_ipv6_env).1 →
        dom1 = PF_INET :=
  ⟨by decide, (socket_family no_ipv6_env).2.2 PF_INET 4 (by decide)⟩

/-! ## C4: failures inside `join_group` -/

/-- C4 fails on the code: `join_group` ends in `return 0;`, so its return
value is 0 whenever it returns, whatever its `error` holds.  In the run
`refused_join_env` the add-membership request fails with `ENODEV`: `error` is
-19, the function returns 0 and `main` enters the dispatch loop instead of
exiting. -/
theorem join_group_failure_ignored :
    (∀ (inet : Inet) (e : JoinEnv) (errno0 : Int) (g : Globals) (sfd loopback port : Int),
      (join_group inet e errno0 g sfd loopback port).map JoinResult.ret =
        (join_group_addr g).map (fun _ => (0 : Int))) ∧
    (join_group sample_inet refused_join_env.join 0
        { sample_globals with config_file_location := some sample_config,
                              lockfile_location := some sample_lockfile }
        4 1 50007).map (fun r => (r.error, r.ret)) = some (-19, 0) ∧
    (main refused_join_env).2 = Final.serving ∧
    Event.setsockopt 4 (SockOpt.IPV6_ADD_MEMBERSHIP
        (some [255, 2, 0, 0, 0, 0, 0, 0, 0, 0, 0, 0, 0, 3, 0, 1])) (-1) ∈
      (main refused_join_env).1 := by
  refine ⟨?_, by decide, by decide, by decide⟩
  intro inet e errno0 g sfd loopback port
  cases hj : join_group inet e errno0 g sfd loopback port with
  | none =>
    unfold join_group at hj
    cases ha : join_group_addr g with
    | none => rfl
    | some a =>
      rw [ha] at hj
      simp only [] at hj
      split_ifs at hj
  | some r =>
    have hr := join_group_ret _ _ _ _ _ _ _ r hj
    unfold join_group at hj
    cases ha : join_group_addr g with
    | none => rw [ha] at hj; simp at hj
    | some a => simp [hr]

/-! ## C5: the group address -/

/-- C5: the group address `join_group` hands to `inet_pton` is `ff02::3:1`
when the family is IPv6 and no multicast address, or the word `default`, is
configured; `224.0.2.5` when the family is IPv4 and the configured address is
`default`; and, in either family, a configured address other than `default`
itself.  It is the address of the first event of `join_group`. -/
theorem join_group_address (inet : Inet) (e : JoinEnv) (errno0 : Int) (g : Globals)
    (sfd loopback port : Int) :
    (g.IPv6 ≠ 0 → (g.multicast_address = none ∨ g.multicast_address = some "default") →
      join_group_addr g = some "ff02::3:1") ∧
    (g.IPv6 = 0 → g.multicast_address = some "default" →
      join_group_addr g = some "224.0.2.5") ∧
    (∀ a, a ≠ "default" → g.multicast_address = some a → join_group_addr g = some a) ∧
    (∀ a, join_group_addr g = some a →
      ∃ r, join_group inet e errno0 g sfd loopback port = some r ∧
        r.events.head? =
          some (Event.inet_pton (if g.IPv6 ≠ 0 then AF_INET6 else AF_INET) a)) := by
  refine ⟨?_, ?_, ?_, ?_⟩
  · intro h6 hm
    rcases hm with hm | hm <;> simp [join_group_addr, h6, hm]
  · intro h4 hm
    simp [join_group_addr, h4, hm]
  · intro a ha hm
    by_cases h6 : g.IPv6 = 0 <;> simp [join_group_addr, h6, hm, ha]
  · intro a ha
    unfold join_group
    rw [ha]
    simp only []
    split_ifs <;> simp

/-- C5 for the default configuration (family not forced, no `-m`). -/
theorem join_group_address_witness : join_group_addr sample_globals = some "ff02::3:1" :=
  (join_group_address sample_inet ⟨⟨0, none⟩, ⟨0, none⟩⟩ 0 sample_globals 4 1 50007).1
    (by decide) (Or.inl rfl)


/-! ## The parent of the daemon -/

theorem handshake_status_cases (sig : Nat) :
    (handshake_status sig = EXIT_SUCCESS ∨ handshake_status sig = EXIT_FAILURE) ∧
      handshake_status sig ≠ -1 := by
  unfold handshake_status
  split_ifs <;> decide

theorem parent_exit_handler_consistent (sig : Nat) (p : Parent) :
    (parent_exit_handler sig p).consistent ∧
      (parent_exit_handler sig p).parent_exit_code = handshake_status sig := by
  unfold parent_exit_handler Parent.consistent
  split_ifs with h
  · exact ⟨Or.inr ⟨sig, by simp, by simp [handshake_status, h]⟩, by simp [handshake_status, h]⟩
  · exact ⟨Or.inr ⟨sig, by simp, by simp [handshake_status, h]⟩, by simp [handshake_status, h]⟩

theorem deliver_consistent (sigs : List Nat) : ∀ p : Parent, p.consistent →
    (deliver p sigs).consistent := by
  induction sigs with
  | nil => intro p h; exact h
  | cons sig sigs ih =>
    intro p _
    simp only [deliver, List.foldl_cons]
    exact ih _ (parent_exit_handler_consistent sig p).1

theorem deliver_nil (p : Parent) : deliver p [] = p := rfl

theorem deliver_single (p : Parent) (sig : Nat) :
    (deliver p [sig]).parent_exit_code = handshake_status sig := by
  simp only [deliver, List.foldl_cons, List.foldl_nil]
  exact (parent_exit_handler_consistent sig p).2

/-- When the parent leaves the loop, its status is the one stored by the last
run of the handler. -/
theorem parent_wait_exit (sleeps : List (List Nat)) : ∀ p : Parent, p.consistent →
    ∀ status, (parent_wait p sleeps).2.2 = some status →
      status ≠ -1 ∧ ∃ sig, (parent_wait p sleeps).2.1.handled.getLast? = some sig ∧
        status = handshake_status sig := by
  have base : ∀ p : Parent, p.consistent → p.parent_exit_code ≠ -1 →
      ∃ sig, p.handled.getLast? = some sig ∧ p.parent_exit_code = handshake_status sig := by
    intro p hc hne
    rcases hc with ⟨h1, _⟩ | h
    · exact absurd h1 hne
    · exact h
  induction sleeps with
  | nil =>
    intro p hc status hs
    by_cases h1 : p.parent_exit_code = -1
    · simp [parent_wait, h1] at hs
    · simp only [parent_wait, h1, if_false, Option.some.injEq] at hs ⊢
      subst hs
      exact ⟨h1, base p hc h1⟩
  | cons b rest ih =>
    intro p hc status hs
    by_cases h1 : p.parent_exit_code = -1
    · simp only [parent_wait, h1, if_true] at hs ⊢
      exact ih _ (deliver_consistent b p hc) status hs
    · simp only [parent_wait, h1, if_false, Option.some.injEq] at hs ⊢
      subst hs
      exact ⟨h1, base p hc h1⟩

/-- Without a signal the parent stays in the loop. -/
theorem parent_wait_blocked (sleeps : List (List Nat)) : ∀ p : Parent,
    p.parent_exit_code = -1 → (∀ b ∈ sleeps, b = []) → (parent_wait p sleeps).2.2 = none := by
  induction sleeps with
  | nil => intro p h1 _; simp [parent_wait, h1]
  | cons b rest ih =>
    intro p h1 hb
    have hb0 : b = [] := hb b (List.mem_cons_self _ _)
    subst hb0
    simp only [parent_wait, h1, if_true, deliver_nil]
    exact ih p h1 (fun c hc => hb c (List.mem_cons_of_mem _ hc))

theorem parent_wait_done (sleeps : List (List Nat)) (p : Parent)
    (h : p.parent_exit_code ≠ -1) : (parent_wait p sleeps).2.2 = some p.parent_exit_code := by
  cases sleeps <;> simp [parent_wait, h]

/-- One signal, whenever it arrives, ends the loop with its status. -/
theorem parent_wait_signal (sig : Nat) (sleeps : List (List Nat)) : ∀ p : Parent,
    p.parent_exit_code = -1 → sleeps.flatten = [sig] →
      (parent_wait p sleeps).2.2 = some (handshake_status sig) := by
  induction sleeps with
  | nil => intro p _ hj; simp at hj
  | cons b rest ih =>
    intro p h1 hj
    simp only [parent_wait, h1, if_true]
    rw [List.flatten_cons] at hj
    cases b with
    | nil =>
      simp only [List.nil_append] at hj
      rw [deliver_nil]
      exact ih p h1 hj
    | cons x xs =>
      simp only [List.cons_append, List.cons.injEq, List.append_eq_nil] at hj
      obtain ⟨hx, hxs, _⟩ := hj
      subst hx hxs
      have hc := deliver_single p x
      rw [parent_wait_done rest _ (by rw [hc]; exact (handshake_status_cases x).2), hc]


theorem kills_append (a b : List Event) : kills (a ++ b) = kills a ++ kills b := by
  simp [kills]

theorem kills_cons (ev : Event) (l : List Event) :
    kills (ev :: l) = (match ev.killSig with
      | some sig => sig :: kills l
      | none => kills l) := by
  simp only [kills, List.filterMap_cons]
  cases ev.killSig <;> rfl

theorem kills_nil : kills [] = [] := rfl

theorem kills_create_lockfile (e : LockEnv) (errno0 : Int) (lockfile : String) :
    kills (create_lockfile e errno0 lockfile).1 = [] := by
  unfold create_lockfile
  simp only []
  split_ifs <;> simp [kills_append, kills_cons, kills_nil, Event.killSig]

theorem kills_verbose_events (g : Globals) : kills (verbose_events g) = [] := by
  unfold verbose_events
  split_ifs <;> simp [kills_cons, kills_nil, Event.killSig]

/-- The worker sends `SIGUSR1` when `create_lockfile` fails and `SIGTERM`
otherwise, and nothing else. -/
theorem kills_worker (w : DaemonEnv) (g : Globals) (hd : g.flags &&& FLAG_NODAEMON = 0)
    (hw : w.fork_ret = 0) :
    kills (daemonize w g).1 =
      [if (create_lockfile w.lock w.errno0 (lockfile_path g)).2 ≠ 0 then SIGUSR1 else SIGTERM] := by
  have hl := kills_create_lockfile w.lock w.errno0 (lockfile_path g)
  have hv := kills_verbose_events g
  unfold daemonize
  simp only [hd, hw, ne_eq, not_true_eq_false, if_false, lt_self_iff_false]
  by_cases hr : (create_lockfile w.lock w.errno0 (lockfile_path g)).2 = 0
  · simp [hr, kills_append, kills_cons, kills_nil, hl, hv, Event.killSig, install_sig_handler]
  · simp [hr, kills_append, kills_cons, kills_nil, hl, hv, Event.killSig]

/-- The process for which `fork` returned the worker's id never returns from
`daemonize`, and it exits only after `parent_exit_handler` has run: its status
is failure if the last signal handled was `SIGUSR1` and success otherwise,
never the initial -1.  As long as no signal arrives it stays in its `sleep`
loop.  The worker sends `SIGUSR1` exactly when `create_lockfile` returns an
error and `SIGTERM` otherwise; when the parent receives what the worker sends,
it exits with failure status exactly when `create_lockfile` failed in the
worker. -/
theorem parent_after_fork (e : DaemonEnv) (g : Globals)
    (hd : g.flags &&& FLAG_NODAEMON = 0) (hf : 0 < e.fork_ret) :
    (daemonize e g).2 ≠ DaemonResult.proceed ∧
    (∀ status, (daemonize e g).2 = DaemonResult.exit status →
      status ≠ -1 ∧ (status = EXIT_SUCCESS ∨ status = EXIT_FAILURE) ∧
      ∃ sig, (parent_wait (deliver Parent.init e.early) e.sleeps).2.1.handled.getLast? = some sig ∧
        status = if sig = SIGUSR1 then EXIT_FAILURE else EXIT_SUCCESS) ∧
    (e.early = [] → (∀ b ∈ e.sleeps, b = []) → (daemonize e g).2 = DaemonResult.waiting) ∧
    (∀ w : DaemonEnv, w.fork_ret = 0 →
      kills (daemonize w g).1 =
        [if (create_lockfile w.lock w.errno0 (lockfile_path g)).2 ≠ 0 then SIGUSR1
         else SIGTERM]) ∧
    (∀ w : DaemonEnv, w.fork_ret = 0 →
      e.early ++ e.sleeps.flatten = kills (daemonize w g).1 →
      (daemonize e g).2 = DaemonResult.exit
        (if (create_lockfile w.lock w.errno0 (lockfile_path g)).2 ≠ 0 then EXIT_FAILURE
         else EXIT_SUCCESS)) := by
  have hf1 : ¬ e.fork_ret < 0 := by omega
  have hf2 : e.fork_ret ≠ 0 := by omega
  have hdz : (daemonize e g).2 =
      (match (parent_wait (deliver Parent.init e.early) e.sleeps).2.2 with
       | some status => DaemonResult.exit status
       | none => DaemonResult.waiting) := by
    unfold daemonize
    simp [hd, hf1, hf2]
  have hinit : (deliver Parent.init e.early).consistent :=
    deliver_consistent e.early Parent.init (Or.inl ⟨rfl, rfl⟩)
  refine ⟨?_, ?_, ?_, ?_, ?_⟩
  · rw [hdz]
    cases (parent_wait (deliver Parent.init e.early) e.sleeps).2.2 <;> simp
  · intro status hs
    rw [hdz] at hs
    cases hw : (parent_wait (deliver Parent.init e.early) e.sleeps).2.2 with
    | none => rw [hw] at hs; simp at hs
    | some st =>
      rw [hw] at hs
      simp only [DaemonResult.exit.injEq] at hs
      subst hs
      obtain ⟨h1, sig, h2, h3⟩ := parent_wait_exit e.sleeps _ hinit st hw
      refine ⟨h1, ?_, sig, h2, h3⟩
      rw [h3]
      exact (handshake_status_cases sig).1
  · intro he hb
    rw [hdz, he, deliver_nil, parent_wait_blocked e.sleeps Parent.init rfl hb]
  · intro w hw
    exact kills_worker w g hd hw
  · intro w hw hk
    rw [kills_worker w g hd hw] at hk
    have hstat : ∀ sig, (parent_wait (deliver Parent.init e.early) e.sleeps).2.2 =
        some (handshake_status sig) → sig =
          (if (create_lockfile w.lock w.errno0 (lockfile_path g)).2 ≠ 0 then SIGUSR1
           else SIGTERM) →
        (daemonize e g).2 = DaemonResult.exit
          (if (create_lockfile w.lock w.errno0 (lockfile_path g)).2 ≠ 0 then EXIT_FAILURE
           else EXIT_SUCCESS) := by
      intro sig h1 h2
      rw [hdz, h1]
      simp only [DaemonResult.exit.injEq]
      rw [h2]
      unfold handshake_status
      split_ifs <;> first | rfl | (exfalso; revert ‹_›; decide)
    cases hearly : e.early with
    | nil =>
      rw [hearly, List.nil_append] at hk
      refine hstat _ ?_ rfl
      rw [hearly, deliver_nil]
      exact parent_wait_signal _ e.sleeps Parent.init rfl hk
    | cons x xs =>
      rw [hearly] at hk
      simp only [List.cons_append, List.cons.injEq, List.append_eq_nil] at hk
      obtain ⟨hx, hxs, _⟩ := hk
      refine hstat x ?_ hx
      rw [hearly, hxs]
      rw [parent_wait_done e.sleeps _ (by rw [deliver_single]; exact (handshake_status_cases x).2),
        deliver_single]

/-! ## C8: exit status of the invoking process -/

/-- C8, as stated, fails when `fork` fails: in daemon mode the invoking process
prints its message and exits with failure status at once, while
`parent_exit_code` still has its initial value -1 and `parent_exit_handler`
has not run for any signal. -/
theorem fork_failure_counterexample :
    sample_globals.flags &&& FLAG_NODAEMON = 0 ∧
    (deliver Parent.init failed_fork.early).parent_exit_code = -1 ∧
    (deliver Parent.init failed_fork.early).handled = [] ∧
    daemonize failed_fork sample_globals =
      ([Event.log LogLevel.dbg "Entering daemon mode.\n",
        Event.signal SIGTERM Handler.parent_exit_handler,
        Event.signal SIGUSR1 Handler.parent_exit_handler,
        Event.fork (-1),
        Event.eprint "Unable to fork().\n"],
       DaemonResult.exit EXIT_FAILURE) := by
  refine ⟨by decide, rfl, rfl, by rfl⟩

/-- C8, amended: in daemon mode the invoking process never returns from
`daemonize` into `main`, and whenever it exits its status is success or
failure.  When `fork` fails it exits at once with failure status, without
waiting.  When `fork` succeeds, the parent never exits while
`parent_exit_code` still is -1: it exits only after `parent_exit_handler` has
run, with failure status if the last signal handled was `SIGUSR1` and success
status otherwise; without a signal it stays in its `sleep` loop; and when it
receives what the worker sends, its status is failure exactly when
`create_lockfile` failed in the worker.  The worker sends `SIGUSR1` exactly
when `create_lockfile` returns an error and `SIGTERM` otherwise. -/
theorem parent_exit_status (e : DaemonEnv) (g : Globals)
    (hd : g.flags &&& FLAG_NODAEMON = 0) (hne : e.fork_ret ≠ 0) :
    (daemonize e g).2 ≠ DaemonResult.proceed ∧
    (∀ status, (daemonize e g).2 = DaemonResult.exit status →
      status = EXIT_SUCCESS ∨ status = EXIT_FAILURE) ∧
    (e.fork_ret < 0 →
      daemonize e g =
        ([Event.log LogLevel.dbg "Entering daemon mode.\n",
          Event.signal SIGTERM Handler.parent_exit_handler,
          Event.signal SIGUSR1 Handler.parent_exit_handler,
          Event.fork e.fork_ret,
          Event.eprint "Unable to fork().\n"],
         DaemonResult.exit EXIT_FAILURE)) ∧
    (0 < e.fork_ret →
      (∀ status, (daemonize e g).2 = DaemonResult.exit status →
        status ≠ -1 ∧
        ∃ sig, (parent_wait (deliver Parent.init e.early) e.sleeps).2.1.handled.getLast? =
            some sig ∧
          status = if sig = SIGUSR1 then EXIT_FAILURE else EXIT_SUCCESS) ∧
      (e.early = [] → (∀ b ∈ e.sleeps, b = []) → (daemonize e g).2 = DaemonResult.waiting) ∧
      (∀ w : DaemonEnv, w.fork_ret = 0 →
        e.early ++ e.sleeps.flatten = kills (daemonize w g).1 →
        (daemonize e g).2 = DaemonResult.exit
          (if (create_lockfile w.lock w.errno0 (lockfile_path g)).2 ≠ 0 then EXIT_FAILURE
           else EXIT_SUCCESS))) ∧
    (∀ w : DaemonEnv, w.fork_ret = 0 →
      kills (daemonize w g).1 =
        [if (create_lockfile w.lock w.errno0 (lockfile_path g)).2 ≠ 0 then SIGUSR1
         else SIGTERM]) := by
  have hfail : e.fork_ret < 0 →
      daemonize e g =
        ([Event.log LogLevel.dbg "Entering daemon mode.\n",
          Event.signal SIGTERM Handler.parent_exit_handler,
          Event.signal SIGUSR1 Handler.parent_exit_handler,
          Event.fork e.fork_ret,
          Event.eprint "Unable to fork().\n"],
         DaemonResult.exit EXIT_FAILURE) := by
    intro hlt
    unfold daemonize
    simp [hd, hlt]
  rcases lt_or_gt_of_ne hne with hlt | hgt
  · have hz := hfail hlt
    refine ⟨?_, ?_, hfail, fun h => absurd h (by omega), fun w hw => kills_worker w g hd hw⟩
    · rw [hz]; simp
    · intro status hs
      rw [hz] at hs
      simp only [DaemonResult.exit.injEq] at hs
      exact Or.inr hs.symm
  · obtain ⟨h1, h2, h3, h4, h5⟩ := parent_after_fork e g hd hgt
    refine ⟨h1, fun status hs => (h2 status hs).2.1, hfail, fun _ => ⟨?_, h3, h5⟩, h4⟩
    intro status hs
    exact ⟨(h2 status hs).1, (h2 status hs).2.2⟩

/-- C8 when the lock is held: the worker sends `SIGUSR1`, the parent handles
it during its second `sleep` and exits with failure status. -/
theorem parent_exit_status_witness :
    (daemonize waiting_parent sample_globals).2 = DaemonResult.exit EXIT_FAILURE :=
  ((parent_exit_status waiting_parent sample_globals (by decide) (by decide)).2.2.2.1
    (by decide)).2.2 held_worker rfl (by decide)

/-! ## `errno` after a failed call -/

theorem after_pos (r : SysRet) (h : r.posix) (x : Int) (hx : 0 < x) : 0 < r.after x := by
  unfold SysRet.after
  cases hr : r.errno with
  | none => simpa using hx
  | some y => simpa using h.2 y hr

theorem after_failed (r : SysRet) (h : r.posix) (hr : r.ret < 0) (x : Int) : 0 < r.after x := by
  obtain ⟨y, hy, hpos⟩ := h.1 hr
  unfold SysRet.after
  rw [hy]
  simpa using hpos

theorem getD_pos (o : Option Int) (h : ∀ x, o = some x → 0 < x) (x : Int) (hx : 0 < x) :
    0 < o.getD x := by
  cases ho : o with
  | none => simpa using hx
  | some y => simpa using h y ho

set_option maxHeartbeats 1000000 in
/-- A failed lock request makes `create_lockfile` return an error. -/
theorem create_lockfile_held (e : LockEnv) (errno0 : Int) (lockfile : String)
    (hfcntl : e.fcntl.posix) (hclose : e.close.posix)
    (hlog : ∀ x, e.log_errno = some x → 0 < x)
    (hheld : ∃ fd r, r < 0 ∧ Event.fcntl_setlk fd r ∈ (create_lockfile e errno0 lockfile).1) :
    (create_lockfile e errno0 lockfile).2 ≠ 0 := by
  obtain ⟨fd, r, hr, hm⟩ := hheld
  have hpos : ∀ x, e.fcntl.ret < 0 →
      ¬ e.log_errno.getD (e.close.after (e.fcntl.after x)) = 0 := by
    intro x hx
    have hp := getD_pos e.log_errno hlog _ (after_pos e.close hclose _
      (after_failed e.fcntl hfcntl hx x))
    omega
  unfold create_lockfile at hm ⊢
  simp only [] at hm ⊢
  generalize (lockfile.toList.take 17 == "/var/run/sistina/".toList) = under at hm ⊢
  cases under <;>
    by_cases hs : e.stat.ret = 0 <;>
    by_cases hmk : e.mkdir.ret = 0 <;>
    by_cases hd : e.is_dir = true <;>
    by_cases ho : e.open_.ret < 0 <;>
    by_cases hfc : e.fcntl.ret < 0 <;>
    simp [hs, hmk, hd, ho, hfc] at hm ⊢ <;>
    first
      | exact hpos _ hfc
      | omega
      | (split_ifs at hm <;> simp at hm <;> omega)


/-! ## C7: a second instance -/

/-- C7: when the lock request of `create_lockfile` fails (the system follows
the `errno` rule of POSIX: the failed `fcntl` stores a positive error number
and the `close` and the log call that follow do not store 0), `create_lockfile`
returns a non-zero error; `daemonize`, in the foreground and in the detached
worker alike, exits with failure status; and the run of `main` ends with that
exit without a single `socket` call. -/
theorem lock_held_exit (e : MainEnv) (g : Globals) (msg : Option String) (out : List Printed)
    (hparse : parse_cli_args e.inet e.mem_ok e.config_default e.lock_default e.g0 e.opts =
      ParseResult.returned g msg out)
    (hproc : g.flags &&& FLAG_NODAEMON ≠ 0 ∨ e.daemon.fork_ret = 0)
    (hfcntl : e.daemon.lock.fcntl.posix) (hclose : e.daemon.lock.close.posix)
    (hlog : ∀ x, e.daemon.lock.log_errno = some x → 0 < x)
    (hheld : ∃ fd r, r < 0 ∧ Event.fcntl_setlk fd r ∈
      (create_lockfile e.daemon.lock e.daemon.errno0 (lockfile_path g)).1) :
    (create_lockfile e.daemon.lock e.daemon.errno0 (lockfile_path g)).2 ≠ 0 ∧
    (daemonize e.daemon g).2 = DaemonResult.exit EXIT_FAILURE ∧
    (main e).2 = Final.exit EXIT_FAILURE ∧
    sockets (main e).1 = [] := by
  have hc := create_lockfile_held e.daemon.lock e.daemon.errno0 (lockfile_path g)
    hfcntl hclose hlog hheld
  have hdz : (daemonize e.daemon g).2 = DaemonResult.exit EXIT_FAILURE := by
    unfold daemonize
    by_cases hn : g.flags &&& FLAG_NODAEMON ≠ 0
    · rw [if_pos hn, if_pos hc]
    · rcases hproc with hp | hp
      · exact absurd hp hn
      · simp [hn, hp, hc]
  refine ⟨hc, hdz, ?_, ?_⟩
  · unfold main
    rw [hparse]
    simp only [hdz]
  · unfold main
    rw [hparse]
    simp only [hdz, sockets_append, sockets_printed, sockets_daemonize, List.append_nil]

/-- C7 for `ccsd -n` while another instance holds the lock. -/
theorem lock_held_exit_witness :
    (main held_env).2 = Final.exit EXIT_FAILURE ∧ sockets (main held_env).1 = [] :=
  (lock_held_exit held_env _ _ _ rfl (Or.inl (by decide))
    ⟨fun _ => ⟨11, rfl, by decide⟩, fun x hx => by cases hx; decide⟩
    ⟨fun h => absurd h (by decide), fun x hx => by cases hx⟩
    (fun x hx => by cases hx)
    ⟨5, -1, by decide, by decide⟩).2.2

/-! ## C10: content of the lock file -/

theorem decimalAux_length (fuel : Nat) : ∀ (n : Nat) (acc : List Char),
    (decimalAux fuel n acc).length ≤ fuel + acc.length := by
  induction fuel with
  | zero => intro n acc; simp [decimalAux]
  | succ fuel ih =>
    intro n acc
    simp only [decimalAux]
    split_ifs
    · simp only [List.length_cons]; omega
    · have h := ih (n / 10) (Char.ofNat (48 + n % 10) :: acc)
      simp only [List.length_cons] at h
      omega

/-- The pid line of a process id that fits in an `int` is far shorter than
the value -1 turns into when it is converted to `size_t`. -/
theorem pid_line_short (pid : Int) (h1 : -2 ^ 31 ≤ pid) (h2 : pid < 2 ^ 31) :
    ¬ ((-1 : Int) % 2 ^ 64).toNat < (pid_line pid).length := by
  have hd : ∀ n : Nat, (decimal n).length ≤ n + 1 := by
    intro n
    have h := decimalAux_length (n + 1) n []
    simpa [decimal] using h
  have hl : (pid_line pid).length ≤ pid.natAbs + 3 := by
    unfold pid_line fmt_d
    split_ifs with hneg
    · have h := hd pid.natAbs
      simp only [List.length_append, List.length_cons, List.length_nil]
      omega
    · have h := hd pid.toNat
      simp only [List.length_append, List.length_cons, List.length_nil]
      omega
  have hv : ((-1 : Int) % 2 ^ 64).toNat = 2 ^ 64 - 1 := by decide
  rw [hv]
  omega


set_option maxHeartbeats 1000000 in
set_option maxRecDepth 20000 in
/-- C11 fails on the code.  The result of `write` is compared with the
unsigned `strlen(buffer)`, so the -1 of a failed `write` counts as the largest
`size_t`: whenever `create_lockfile` reaches the `write` and it returns -1, the
failure branch is skipped (no `unlink`) and the function returns 0.  In the run
`failed_write_lock` (`ENOSPC`) the trace ends with the `write` and the return
value is 0.  A short `write` does take the failure branch, but the value
returned is `-errno`, which a short `write` does not set: in the run
`short_write_lock` the file is closed and unlinked and the return value is
again 0. -/
theorem write_failure_undetected :
    (∀ (e : LockEnv) (errno0 : Int) (lockfile : String),
      e.write.ret = -1 → -2 ^ 31 ≤ e.pid → e.pid < 2 ^ 31 →
      (∃ fd buf count, Event.write fd buf count (-1) ∈ (create_lockfile e errno0 lockfile).1) →
      (create_lockfile e errno0 lockfile).2 = 0 ∧
        Event.unlink lockfile ∉ (create_lockfile e errno0 lockfile).1) ∧
    create_lockfile failed_write_lock 0 sample_lockfile =
      ([Event.stat "/var/run/sistina" 0, Event.open_ sample_lockfile 5, Event.fcntl_setlk 5 0,
        Event.ftruncate 5 0, Event.write 5 "4242\n" 5 (-1)], 0) ∧
    create_lockfile short_write_lock 0 sample_lockfile =
      ([Event.stat "/var/run/sistina" 0, Event.open_ sample_lockfile 5, Event.fcntl_setlk 5 0,
        Event.ftruncate 5 0, Event.write 5 "4242\n" 5 2, Event.close 5,
        Event.unlink sample_lockfile], 0) := by
  refine ⟨?_, by rfl, by rfl⟩
  intro e errno0 lockfile hw h1 h2 hm
  obtain ⟨fd, buf, count, hm⟩ := hm
  have hno := pid_line_short e.pid h1 h2
  have hv : ((-1 : Int) % 2 ^ 64).toNat = 18446744073709551615 := by decide
  rw [hv] at hno
  unfold create_lockfile at hm ⊢
  simp only [] at hm ⊢
  rw [hw] at hm ⊢
  generalize (lockfile.toList.take 17 == "/var/run/sistina/".toList) = under at hm ⊢
  generalize pid_line e.pid = line at hm hno ⊢
  cases under <;>
    by_cases hs : e.stat.ret = 0 <;>
    by_cases hmk : e.mkdir.ret = 0 <;>
    by_cases hd : e.is_dir = true <;>
    by_cases ho : e.open_.ret < 0 <;>
    by_cases hfc : e.fcntl.ret < 0 <;>
    by_cases hft : e.ftruncate.ret < 0 <;>
    simp [hs, hmk, hd, ho, hfc, hft, hno] at hm ⊢

end Ccsd
